import Mathlib

/-!
Verification of the persistence layer of `nbb_scraper` (`src/nbb/db_manager.py`):
a shallow embedding of the connection pool, the `DatabaseManager` transaction
scope, the schema-creation statement, the five entity writers and the
season-query reader, together with proofs of the specified properties.
-/

/-- A loosely-typed field value as produced by the upstream pipeline and read
through `ItemAdapter.get` (which yields `None` when the field is absent). -/
inductive Value where
  | none
  | int (n : Int)
  | str (s : String)
deriving DecidableEq, Repr

/-- Python truthiness test used by the writers' `if not x` checks:
`None`, `0` and `""` are falsy. -/
def falsy : Value → Bool
  | .none => true
  | .int n => n == 0
  | .str s => s == ""

/-- A loosely-typed record (a scraped item): an association list of fields. -/
def Record := List (String × Value)

/-- `ItemAdapter(item).get(key)`: the first binding of `key`, else `None`. -/
def adapterGet (r : Record) (k : String) : Value :=
  match r.find? (fun p => p.1 == k) with
  | some p => p.2
  | Option.none => .none

/-- A row of `teams_table`. -/
structure TeamRow where
  id : Value
  name : Value
  logo : Value
deriving DecidableEq, Repr

/-- A row of `players_table`. -/
structure PlayerRow where
  id : Value
  player_name : Value
  player_icon_url : Value
deriving DecidableEq, Repr

/-- A row of `player_teams_by_season_table`. -/
structure RosterRow where
  player_id : Value
  player_team_id : Value
  season : Value
  player_number : Value
deriving DecidableEq, Repr

/-- A row of `games_table`. -/
structure GameRow where
  id : Value
  game_date : Value
  game_time : Value
  home_team_id : Value
  away_team_id : Value
  home_team_score : Value
  away_team_score : Value
  round : Value
  stage : Value
  season : Value
  arena : Value
  link : Value
deriving DecidableEq, Repr

/-- A row of `shots_table`; `id` is the SERIAL surrogate key. -/
structure ShotRow where
  id : Nat
  player_id : Value
  game_id : Value
  team_id : Value
  shot_quarter : Value
  shot_time : Value
  shot_type : Value
  shot_x_location : Value
  shot_y_location : Value
deriving DecidableEq, Repr

/-- The database state: which tables exist, their contents, and the next
SERIAL value for `shots_table.id`. -/
structure DB where
  schema : List String
  teams : List TeamRow
  players : List PlayerRow
  rosters : List RosterRow
  games : List GameRow
  shots : List ShotRow
  shotSeq : Nat
deriving DecidableEq, Repr

/-- The empty database: no tables created yet. -/
def DB.empty : DB :=
  { schema := [], teams := [], players := [], rosters := [], games := [],
    shots := [], shotSeq := 0 }

/-- Errors raised by the database driver (psycopg2), plus arbitrary
non-database failures raised by scope bodies. -/
inductive Exc where
  | notNullViolation (table : String)
  | fkViolation (table : String)
  | uniqueViolation (table : String)
  | undefinedTable (table : String)
  | other (n : Nat)
deriving DecidableEq, Repr

/-- A pooled connection: the state visible to other (committed) readers, the
current transaction's working state, whether a cursor is open, and whether
the underlying `rollback()` call would itself raise (connection broken). -/
structure Conn where
  committed : DB
  pending : DB
  cursorOpen : Bool
  rollbackRaises : Option Exc
deriving DecidableEq, Repr

/-- A healthy pooled connection over committed state `d`. -/
def mkConn (d : DB) : Conn :=
  { committed := d, pending := d, cursorOpen := false, rollbackRaises := Option.none }

/-- `self.conn.rollback()` as called from a writer's `except` block before
`raise`: if the rollback succeeds the pending state is discarded and the
original error `e` propagates; if the rollback itself raises, that new
exception propagates instead (Python exception replacement in a handler). -/
def connFail (c : Conn) (e : Exc) : Conn × Option Exc :=
  match c.rollbackRaises with
  | some e' => (c, some e')
  | Option.none => ({ c with pending := c.committed }, some e)

/-- Does the teams table contain a row with this id? -/
def DB.hasTeam (db : DB) (v : Value) : Bool :=
  db.teams.any (fun r => r.id == v)

/-- Does the players table contain a row with this id? -/
def DB.hasPlayer (db : DB) (v : Value) : Bool :=
  db.players.any (fun r => r.id == v)

/-- Does the games table contain a row with this id? -/
def DB.hasGame (db : DB) (v : Value) : Bool :=
  db.games.any (fun r => r.id == v)

/-- A nullable foreign key is satisfied when the value is NULL or the
referenced row exists. -/
def fkOk (isNull : Bool) (exists_ : Bool) : Bool :=
  isNull || exists_

/-- `INSERT INTO teams_table ... ON CONFLICT (id) DO NOTHING`. -/
def sqlInsertTeam (db : DB) (id name logo : Value) : Except Exc DB :=
  if "teams_table" ∉ db.schema then .error (.undefinedTable "teams_table")
  else if id = .none then .error (.notNullViolation "teams_table")
  else if db.hasTeam id then .ok db
  else .ok { db with teams := db.teams ++ [⟨id, name, logo⟩] }

/-- `INSERT INTO players_table ... ON CONFLICT (id) DO NOTHING`. -/
def sqlInsertPlayer (db : DB) (id pname picon : Value) : Except Exc DB :=
  if "players_table" ∉ db.schema then .error (.undefinedTable "players_table")
  else if id = .none then .error (.notNullViolation "players_table")
  else if db.hasPlayer id then .ok db
  else .ok { db with players := db.players ++ [⟨id, pname, picon⟩] }

/-- `INSERT INTO player_teams_by_season_table ... ON CONFLICT (player_id,
player_team_id, season) DO NOTHING`; the three key columns are NOT NULL and
`player_id`, `player_team_id` are foreign keys. -/
def sqlInsertRoster (db : DB) (pid tid season num : Value) : Except Exc DB :=
  if "player_teams_by_season_table" ∉ db.schema then
    .error (.undefinedTable "player_teams_by_season_table")
  else if pid = .none ∨ tid = .none ∨ season = .none then
    .error (.notNullViolation "player_teams_by_season_table")
  else if ¬ db.hasPlayer pid ∨ ¬ db.hasTeam tid then
    .error (.fkViolation "player_teams_by_season_table")
  else if db.rosters.any (fun r =>
      r.player_id == pid && r.player_team_id == tid && r.season == season) then
    .ok db
  else .ok { db with rosters := db.rosters ++ [⟨pid, tid, season, num⟩] }

/-- `INSERT INTO games_table ... ON CONFLICT (id) DO UPDATE SET` every
non-key column to the excluded (new) value; `home_team_id` and
`away_team_id` are nullable foreign keys into `teams_table`. -/
def sqlInsertGame (db : DB) (g : GameRow) : Except Exc DB :=
  if "games_table" ∉ db.schema then .error (.undefinedTable "games_table")
  else if g.id = .none then .error (.notNullViolation "games_table")
  else if ¬ (fkOk (g.home_team_id == .none) (db.hasTeam g.home_team_id) &&
             fkOk (g.away_team_id == .none) (db.hasTeam g.away_team_id)) then
    .error (.fkViolation "games_table")
  else if db.hasGame g.id then
    .ok { db with games := db.games.map (fun r => if r.id == g.id then g else r) }
  else .ok { db with games := db.games ++ [g] }

/-- `INSERT INTO shots_table ...`: plain insert, no conflict target; the
SERIAL column assigns the next surrogate id; the three reference columns are
nullable foreign keys. -/
def sqlInsertShot (db : DB) (pid gid tid q t ty x y : Value) : Except Exc DB :=
  if "shots_table" ∉ db.schema then .error (.undefinedTable "shots_table")
  else if ¬ (fkOk (pid == .none) (db.hasPlayer pid) &&
             fkOk (gid == .none) (db.hasGame gid) &&
             fkOk (tid == .none) (db.hasTeam tid)) then
    .error (.fkViolation "shots_table")
  else .ok { db with
    shots := db.shots ++ [⟨db.shotSeq, pid, gid, tid, q, t, ty, x, y⟩],
    shotSeq := db.shotSeq + 1 }

/-- Result of one writer call: the connection afterwards, the exception it
re-raised (if any), and whether it skipped the write with a logged warning. -/
structure WRes where
  conn : Conn
  exc : Option Exc
  warned : Bool
deriving DecidableEq, Repr

/-- A writer result that re-raises after the `except` block's rollback. -/
def wfail (c : Conn) (e : Exc) : WRes :=
  let p := connFail c e
  ⟨p.1, p.2, false⟩

/-- `DatabaseManager.insert_team`. -/
def insert_team (team_item : Record) (c : Conn) : WRes :=
  let team_id := adapterGet team_item "id"
  let name := adapterGet team_item "name"
  let logo := adapterGet team_item "logo"
  if falsy team_id then ⟨c, Option.none, true⟩
  else
    match sqlInsertTeam c.pending team_id name logo with
    | .ok db => ⟨{ c with pending := db }, Option.none, false⟩
    | .error e => wfail c e

/-- `DatabaseManager.insert_player`. -/
def insert_player (player_item : Record) (c : Conn) : WRes :=
  let player_id := adapterGet player_item "player_id"
  let player_name := adapterGet player_item "player_name"
  let player_icon_url := adapterGet player_item "player_icon_url"
  if falsy player_id then ⟨c, Option.none, true⟩
  else
    match sqlInsertPlayer c.pending player_id player_name player_icon_url with
    | .ok db => ⟨{ c with pending := db }, Option.none, false⟩
    | .error e => wfail c e

/-- `DatabaseManager.insert_player_team_by_season`. -/
def insert_player_team_by_season (player_item : Record) (c : Conn) : WRes :=
  let player_id := adapterGet player_item "player_id"
  let player_team_id := adapterGet player_item "player_team_id"
  let season := adapterGet player_item "season"
  let player_number := adapterGet player_item "player_number"
  if ¬ (¬ falsy player_id ∧ ¬ falsy player_team_id ∧ ¬ falsy season) then
    ⟨c, Option.none, true⟩
  else
    match sqlInsertRoster c.pending player_id player_team_id season player_number with
    | .ok db => ⟨{ c with pending := db }, Option.none, false⟩
    | .error e => wfail c e

/-- The row `insert_game` builds from a game item. -/
def gameRowOf (game_item : Record) : GameRow :=
  { id := adapterGet game_item "game_id"
    game_date := adapterGet game_item "game_date"
    game_time := adapterGet game_item "game_time"
    home_team_id := adapterGet game_item "home_team_id"
    away_team_id := adapterGet game_item "away_team_id"
    home_team_score := adapterGet game_item "home_team_score"
    away_team_score := adapterGet game_item "away_team_score"
    round := adapterGet game_item "round"
    stage := adapterGet game_item "stage"
    season := adapterGet game_item "season"
    arena := adapterGet game_item "arena"
    link := adapterGet game_item "link" }

/-- `DatabaseManager.insert_game`. -/
def insert_game (game_item : Record) (c : Conn) : WRes :=
  let game_id := adapterGet game_item "game_id"
  if falsy game_id then ⟨c, Option.none, true⟩
  else
    match sqlInsertGame c.pending (gameRowOf game_item) with
    | .ok db => ⟨{ c with pending := db }, Option.none, false⟩
    | .error e => wfail c e

/-- `DatabaseManager.insert_shot`. -/
def insert_shot (shot_item : Record) (c : Conn) : WRes :=
  let player_id := adapterGet shot_item "player_id"
  let game_id := adapterGet shot_item "game_id"
  let team_id := adapterGet shot_item "team_id"
  let shot_quarter := adapterGet shot_item "shot_quarter"
  let shot_time := adapterGet shot_item "shot_time"
  let shot_type := adapterGet shot_item "shot_type"
  let shot_x_location := adapterGet shot_item "shot_x_location"
  let shot_y_location := adapterGet shot_item "shot_y_location"
  if ¬ (¬ falsy player_id ∧ ¬ falsy game_id ∧ ¬ falsy team_id) then
    ⟨c, Option.none, true⟩
  else
    match sqlInsertShot c.pending player_id game_id team_id shot_quarter
        shot_time shot_type shot_x_location shot_y_location with
    | .ok db => ⟨{ c with pending := db }, Option.none, false⟩
    | .error e => wfail c e

/-- One `CREATE TABLE IF NOT EXISTS` statement: a no-op when the table
already exists; otherwise it requires every foreign-key-referenced table to
exist already. -/
def createStmt (db : DB) (name : String) (deps : List String) : Except Exc DB :=
  if name ∈ db.schema then .ok db
  else if ∀ t ∈ deps, t ∈ db.schema then
    .ok { db with schema := name :: db.schema }
  else .error (.undefinedTable name)

/-- The DDL batch issued by `create_tables`, in source order: teams, players,
roster links, games, shots. -/
def runDDL (db : DB) : Except Exc DB := do
  let db1 ← createStmt db "teams_table" []
  let db2 ← createStmt db1 "players_table" []
  let db3 ← createStmt db2 "player_teams_by_season_table"
    ["players_table", "teams_table"]
  let db4 ← createStmt db3 "games_table" ["teams_table"]
  createStmt db4 "shots_table" ["players_table", "games_table", "teams_table"]

/-- `DatabaseManager.create_tables`: execute the DDL batch; on failure roll
back and re-raise. -/
def create_tables (c : Conn) : Conn × Option Exc :=
  match runDDL c.pending with
  | .ok db => ({ c with pending := db }, Option.none)
  | .error e => connFail c e

/-- Result of the read query: connection afterwards, exception (if any), and
the fetched id column. -/
structure QRes where
  conn : Conn
  exc : Option Exc
  rows : List Value
deriving DecidableEq, Repr

/-- `DatabaseManager.get_id_games_by_season`: `SELECT DISTINCT g.id FROM
games_table g WHERE g.season = %s`; on failure roll back and re-raise. -/
def get_id_games_by_season (season : Value) (c : Conn) : QRes :=
  if "games_table" ∈ c.pending.schema then
    ⟨c, Option.none,
      ((c.pending.games.filter (fun g => g.season == season)).map
        (fun g => g.id)).dedup⟩
  else
    let p := connFail c (.undefinedTable "games_table")
    ⟨p.1, p.2, []⟩

/-- One statement of a unit of work executed inside a scope. -/
inductive Stmt where
  | team (r : Record)
  | player (r : Record)
  | roster (r : Record)
  | game (r : Record)
  | shot (r : Record)
  | ddl
  | query (season : Value)
  | raiseExc (e : Exc)

/-- Run one statement on the scope's connection. -/
def runStmt (s : Stmt) (c : Conn) : Conn × Option Exc :=
  match s with
  | .team r => let w := insert_team r c; (w.conn, w.exc)
  | .player r => let w := insert_player r c; (w.conn, w.exc)
  | .roster r => let w := insert_player_team_by_season r c; (w.conn, w.exc)
  | .game r => let w := insert_game r c; (w.conn, w.exc)
  | .shot r => let w := insert_shot r c; (w.conn, w.exc)
  | .ddl => create_tables c
  | .query s => let q := get_id_games_by_season s c; (q.conn, q.exc)
  | .raiseExc e => (c, some e)

/-- Run a scope body: statements execute in order; the first escaping
exception aborts the rest of the body. -/
def runProg (prog : List Stmt) (c : Conn) : Conn × Option Exc :=
  match prog with
  | [] => (c, Option.none)
  | s :: rest =>
    let r := runStmt s c
    match r.2 with
    | some e => (r.1, some e)
    | Option.none => runProg rest r.1

/-- `DatabaseManager.__enter__` after a successful `POOL.getconn()`:
auto-commit is disabled (a fresh transaction sees the committed state) and a
cursor is opened. -/
def scopeEnter (c : Conn) : Conn :=
  { c with pending := c.committed, cursorOpen := true }

/-- `DatabaseManager.__exit__`: close the cursor; then commit when no
exception escaped the body, else roll back (a rollback failure replaces the
body's exception and skips `POOL.putconn`). Returns the final connection,
the exception escaping the `with` statement, and whether the connection was
returned to the pool. -/
def scopeExit (c : Conn) (bodyExc : Option Exc) : Conn × Option Exc × Bool :=
  let c1 := { c with cursorOpen := false }
  match bodyExc with
  | Option.none => ({ c1 with committed := c1.pending }, Option.none, true)
  | some e =>
    match c1.rollbackRaises with
    | some e' => (c1, some e', false)
    | Option.none => ({ c1 with pending := c1.committed }, some e, true)

/-- `with DatabaseManager(DB_CONFIG) as m: body` over a pool of available
connections: `none` when the pool is exhausted (`getconn` blocks). Yields
the exception escaping the `with` statement and the pool afterwards. -/
def runScope (avail : List Conn) (prog : List Stmt) :
    Option (Option Exc × List Conn) :=
  match avail with
  | [] => Option.none
  | c :: rest =>
    let bp := runProg prog (scopeEnter c)
    let ex := scopeExit bp.1 bp.2
    some (ex.2.1, if ex.2.2 then rest ++ [ex.1] else rest)

/-- All five table names, as created by the DDL batch. -/
def allTables : List String :=
  ["shots_table", "games_table", "player_teams_by_season_table",
   "players_table", "teams_table"]

/-- A game row with only id and season populated. -/
def gameRowIdSeason (i : Int) (s : String) : GameRow :=
  ⟨.int i, .none, .none, .none, .none, .none, .none, .none, .none,
   .str s, .none, .none⟩

/-- A database with the full schema, one team, one player and one game. -/
def dbSeed : DB :=
  { schema := allTables
    teams := [⟨.str "LAL", .str "Lakers", .none⟩]
    players := [⟨.int 1, .str "Ace", .none⟩]
    rosters := []
    games := [gameRowIdSeason 5 "2023"]
    shots := []
    shotSeq := 0 }

/-- A database with the full schema and games 10, 11 (season 2023) and
12 (season 2024). -/
def dbGames : DB :=
  { schema := allTables
    teams := []
    players := []
    rosters := []
    games := [gameRowIdSeason 10 "2023", gameRowIdSeason 11 "2023",
              gameRowIdSeason 12 "2024"]
    shots := []
    shotSeq := 0 }

/-- A shot item referencing a game id that does not exist in `dbSeed`. -/
def rShotNoGame : Record :=
  [("player_id", .int 1), ("game_id", .int 6), ("team_id", .str "LAL")]

/-- Two team items sharing key "BOS" with different non-key values. -/
def rT1 : Record :=
  [("id", .str "BOS"), ("name", .str "Celtics"), ("logo", .str "l1")]

/-- Second team item for key "BOS". -/
def rT2 : Record :=
  [("id", .str "BOS"), ("name", .str "Other"), ("logo", .str "l2")]

/-- Two player items sharing key 2 with different names. -/
def rP1 : Record := [("player_id", .int 2), ("player_name", .str "Bob")]

/-- Second player item for key 2. -/
def rP2 : Record := [("player_id", .int 2), ("player_name", .str "Rob")]

/-- Two roster items sharing the key (1, "LAL", "2023"). -/
def rR1 : Record :=
  [("player_id", .int 1), ("player_team_id", .str "LAL"),
   ("season", .str "2023"), ("player_number", .str "23")]

/-- Second roster item for the key (1, "LAL", "2023"). -/
def rR2 : Record :=
  [("player_id", .int 1), ("player_team_id", .str "LAL"),
   ("season", .str "2023"), ("player_number", .str "8")]

/-- Two game items sharing key 1 with differing scores. -/
def rG1 : Record :=
  [("game_id", .int 1), ("home_team_score", .int 80),
   ("away_team_score", .int 70), ("season", .str "2023")]

/-- Second game item for key 1, with corrected scores. -/
def rG2 : Record :=
  [("game_id", .int 1), ("home_team_score", .int 90),
   ("away_team_score", .int 75), ("season", .str "2023")]

/-- A shot item whose references all exist in `dbSeed`. -/
def rS : Record :=
  [("player_id", .int 1), ("game_id", .int 5), ("team_id", .str "LAL"),
   ("shot_type", .str "3pt")]

/-- A field is absent from a record: it has no binding for the key. -/
def fieldAbsent (r : Record) (k : String) : Bool :=
  (r.find? (fun p => p.1 == k)).isNone

/-- A team item with no "id" field at all. -/
def rTeamNoId : Record := [("name", .str "X")]

/-- A player item with no "player_id" field. -/
def rPlayerNoId : Record := [("player_name", .str "Y")]

/-- A roster item with no "season" field. -/
def rRosterNoSeason : Record :=
  [("player_id", .int 1), ("player_team_id", .str "LAL")]

/-- A game item with no "game_id" field. -/
def rGameNoId : Record := [("season", .str "2023")]

/-- A shot item with no "team_id" field. -/
def rShotNoTeam : Record := [("player_id", .int 1), ("game_id", .int 5)]

/-- A team item whose id is present but is the empty string (falsy). -/
def rTeamEmptyId : Record := [("id", .str ""), ("name", .str "X")]

/-- A player item whose player_id is present but is the integer 0 (falsy). -/
def rPlayerZeroId : Record := [("player_id", .int 0), ("player_name", .str "Y")]

/-- A roster item whose season is present but empty (falsy). -/
def rRosterEmptySeason : Record :=
  [("player_id", .int 1), ("player_team_id", .str "LAL"), ("season", .str "")]

/-- A game item whose game_id is present but 0 (falsy). -/
def rGameZeroId : Record := [("game_id", .int 0), ("season", .str "2023")]

/-- A shot item whose team_id is present but empty (falsy). -/
def rShotEmptyTeam : Record :=
  [("player_id", .int 1), ("game_id", .int 5), ("team_id", .str "")]

/-- A pooled connection whose underlying rollback call itself raises. -/
def cBroken : Conn :=
  { committed := DB.empty, pending := DB.empty, cursorOpen := false,
    rollbackRaises := some (Exc.other 99) }

theorem connFail_fst_committed (c : Conn) (e : Exc) :
    (connFail c e).1.committed = c.committed := by
  cases h : c.rollbackRaises <;> simp [connFail, h]

theorem connFail_fst_rollbackRaises (c : Conn) (e : Exc) :
    (connFail c e).1.rollbackRaises = c.rollbackRaises := by
  cases h : c.rollbackRaises <;> simp [connFail, h]

theorem connFail_fst_cursor (c : Conn) (e : Exc) :
    (connFail c e).1.cursorOpen = c.cursorOpen := by
  cases h : c.rollbackRaises <;> simp [connFail, h]

theorem connFail_healthy (c : Conn) (e : Exc) (h : c.rollbackRaises = Option.none) :
    connFail c e = ({ c with pending := c.committed }, some e) := by
  simp [connFail, h]

theorem runStmt_committed (s : Stmt) (c : Conn) :
    (runStmt s c).1.committed = c.committed := by
  cases s <;>
    simp only [runStmt, insert_team, insert_player, insert_player_team_by_season,
      insert_game, insert_shot, create_tables, get_id_games_by_season, wfail] <;>
    (repeat' split) <;>
    simp [connFail_fst_committed]

theorem runStmt_rollbackRaises (s : Stmt) (c : Conn) :
    (runStmt s c).1.rollbackRaises = c.rollbackRaises := by
  cases s <;>
    simp only [runStmt, insert_team, insert_player, insert_player_team_by_season,
      insert_game, insert_shot, create_tables, get_id_games_by_season, wfail] <;>
    (repeat' split) <;>
    simp [connFail_fst_rollbackRaises]

theorem runStmt_cursor (s : Stmt) (c : Conn) :
    (runStmt s c).1.cursorOpen = c.cursorOpen := by
  cases s <;>
    simp only [runStmt, insert_team, insert_player, insert_player_team_by_season,
      insert_game, insert_shot, create_tables, get_id_games_by_season, wfail] <;>
    (repeat' split) <;>
    simp [connFail_fst_cursor]

/-- Is this statement a raw body failure (as opposed to a database call)? -/
def Stmt.isRaise : Stmt → Bool
  | .raiseExc _ => true
  | _ => false

theorem runStmt_err_pending (s : Stmt) (c : Conn) (e : Exc)
    (hs : s.isRaise = false)
    (hrb : c.rollbackRaises = Option.none) (h : (runStmt s c).2 = some e) :
    (runStmt s c).1.pending = c.committed := by
  cases s <;> simp only [Stmt.isRaise] at hs <;>
    simp only [runStmt, insert_team, insert_player, insert_player_team_by_season,
      insert_game, insert_shot, create_tables, get_id_games_by_season, wfail] at h ⊢ <;>
    (repeat' split at h) <;>
    simp_all [connFail, hrb]

theorem runProg_committed (prog : List Stmt) (c : Conn) :
    (runProg prog c).1.committed = c.committed := by
  induction prog generalizing c with
  | nil => rfl
  | cons s rest ih =>
    simp only [runProg]
    split
    · exact runStmt_committed s c
    · rw [ih]; exact runStmt_committed s c

theorem runProg_rollbackRaises (prog : List Stmt) (c : Conn) :
    (runProg prog c).1.rollbackRaises = c.rollbackRaises := by
  induction prog generalizing c with
  | nil => rfl
  | cons s rest ih =>
    simp only [runProg]
    split
    · exact runStmt_rollbackRaises s c
    · rw [ih]; exact runStmt_rollbackRaises s c

/-- Full behaviour of a scope run on a single healthy pooled connection:
the exception escaping the scope, the final connection and the commit /
rollback outcome on each exit path. -/
theorem runScope_single (d : DB) (prog : List Stmt) :
    ∃ esc cf, runScope [mkConn d] prog = some (esc, [cf]) ∧
      cf.cursorOpen = false ∧
      esc = (runProg prog (scopeEnter (mkConn d))).2 ∧
      (esc = Option.none →
        cf.committed = (runProg prog (scopeEnter (mkConn d))).1.pending) ∧
      (∀ e, esc = some e → cf.committed = d ∧ cf.pending = d) := by
  have hrb : (runProg prog (scopeEnter (mkConn d))).1.rollbackRaises
      = Option.none := by
    rw [runProg_rollbackRaises]; rfl
  have hcm : (runProg prog (scopeEnter (mkConn d))).1.committed = d := by
    rw [runProg_committed]; rfl
  cases hb : (runProg prog (scopeEnter (mkConn d))).2 with
  | none =>
    refine ⟨Option.none,
      { (runProg prog (scopeEnter (mkConn d))).1 with
        cursorOpen := false,
        committed := (runProg prog (scopeEnter (mkConn d))).1.pending },
      ?_, rfl, rfl, fun _ => rfl, fun e he => by simp at he⟩
    simp only [runScope]
    rw [hb]
    simp [scopeExit]
  | some e =>
    refine ⟨some e,
      { (runProg prog (scopeEnter (mkConn d))).1 with
        cursorOpen := false,
        pending := (runProg prog (scopeEnter (mkConn d))).1.committed },
      ?_, rfl, rfl, fun h => by simp at h, ?_⟩
    · simp only [runScope]
      rw [hb]
      simp [scopeExit, hrb]
    · intro e' he'
      constructor
      · simpa using hcm
      · simpa using hcm

/-- Claim C1: for every unit of work run inside a `with DatabaseManager`
scope on a healthy pooled connection: if the body completes normally, the
transaction is committed (the committed state becomes the body's final
pending state), the cursor is closed and the connection is returned to the
pool; if any failure escapes the body, the transaction is rolled back (the
committed and pending states equal the state at entry), the cursor is
closed, the connection is returned to the pool, and the same failure
re-propagates unchanged. The connection is released on both exit paths. -/
theorem scope_guaranteed_release (d : DB) (prog : List Stmt) :
    ∃ esc cf, runScope [mkConn d] prog = some (esc, [cf]) ∧
      cf.cursorOpen = false ∧
      esc = (runProg prog (scopeEnter (mkConn d))).2 ∧
      (esc = Option.none →
        cf.committed = (runProg prog (scopeEnter (mkConn d))).1.pending) ∧
      (∀ e, esc = some e → cf.committed = d ∧ cf.pending = d) :=
  runScope_single d prog

/-- Claim C2: when a database call made by an entity writer raises (in
particular on a constraint violation), the writer rolls the transaction back
before re-raising, so the pending state equals the committed state at the
point the exception propagates; consequently, after a scope that ended with
an escaping failure, no write of that scope is visible: the connection's
committed and pending states equal the state from before the scope. -/
theorem writer_rollback_on_violation :
    (∀ (s : Stmt) (c : Conn) (e : Exc), s.isRaise = false →
        c.rollbackRaises = Option.none → (runStmt s c).2 = some e →
        (runStmt s c).1.pending = c.committed) ∧
    (∀ (d : DB) (prog : List Stmt) (esc : Option Exc) (cs : List Conn)
        (e : Exc), runScope [mkConn d] prog = some (esc, cs) → esc = some e →
        ∀ cf ∈ cs, cf.committed = d ∧ cf.pending = d) := by
  constructor
  · exact fun s c e hs hrb h => runStmt_err_pending s c e hs hrb h
  · intro d prog esc cs e hrun hesc cf hcf
    obtain ⟨esc', cf', hrun', _, _, _, hsome⟩ := runScope_single d prog
    rw [hrun] at hrun'
    have hpair := Option.some.inj hrun'
    have hesc' : esc = esc' := congrArg Prod.fst hpair
    have hcs : cs = [cf'] := congrArg Prod.snd hpair
    subst hcs
    have : cf = cf' := by simpa using hcf
    subst this
    exact hsome e (hesc' ▸ hesc)

theorem scope_guaranteed_release_witness :
    ∃ esc cf,
      runScope [mkConn DB.empty] [Stmt.raiseExc (Exc.other 7)]
        = some (esc, [cf]) ∧
      cf.cursorOpen = false ∧
      esc = (runProg [Stmt.raiseExc (Exc.other 7)]
        (scopeEnter (mkConn DB.empty))).2 ∧
      (esc = Option.none → cf.committed = (runProg [Stmt.raiseExc (Exc.other 7)]
        (scopeEnter (mkConn DB.empty))).1.pending) ∧
      (∀ e, esc = some e → cf.committed = DB.empty ∧ cf.pending = DB.empty) :=
  scope_guaranteed_release DB.empty [Stmt.raiseExc (Exc.other 7)]

theorem writer_rollback_on_violation_witness :
    Stmt.isRaise (Stmt.shot rShotNoGame) = false ∧
    (mkConn dbSeed).rollbackRaises = Option.none ∧
    (runStmt (Stmt.shot rShotNoGame) (mkConn dbSeed)).2
      = some (Exc.fkViolation "shots_table") ∧
    (runStmt (Stmt.shot rShotNoGame) (mkConn dbSeed)).1.pending
      = (mkConn dbSeed).committed ∧
    runScope [mkConn dbSeed] [Stmt.shot rShotNoGame]
      = some (some (Exc.fkViolation "shots_table"), [mkConn dbSeed]) ∧
    ∀ cf ∈ [mkConn dbSeed], cf.committed = dbSeed ∧ cf.pending = dbSeed :=
  ⟨rfl, rfl, by decide, writer_rollback_on_violation.1 _ _
      (Exc.fkViolation "shots_table") rfl rfl (by decide),
    by decide, writer_rollback_on_violation.2 dbSeed [Stmt.shot rShotNoGame] _ _
      (Exc.fkViolation "shots_table") (by decide) rfl⟩

theorem filter_eq_nil_of_any_false {α : Type} (l : List α) (p : α → Bool)
    (h : l.any p = false) : l.filter p = [] := by
  rw [List.filter_eq_nil_iff]
  intro a ha
  rw [List.any_eq_false] at h
  exact h a ha

theorem hasTeam_append_self (db : DB) (v n l : Value) :
    (db.teams ++ [(⟨v, n, l⟩ : TeamRow)]).any (fun r => r.id == v) = true := by
  simp [List.any_append]

theorem insert_team_new (r : Record) (c : Conn)
    (hm : "teams_table" ∈ c.pending.schema)
    (hf : falsy (adapterGet r "id") = false)
    (hh : c.pending.hasTeam (adapterGet r "id") = false) :
    insert_team r c =
      ⟨{ c with pending := { c.pending with teams := c.pending.teams ++
          [⟨adapterGet r "id", adapterGet r "name", adapterGet r "logo"⟩] } },
        Option.none, false⟩ := by
  have hne : adapterGet r "id" ≠ .none := by
    intro h; rw [h] at hf; simp [falsy] at hf
  simp [insert_team, sqlInsertTeam, hm, hf, hh, hne]

theorem insert_team_dup (r : Record) (c : Conn)
    (hm : "teams_table" ∈ c.pending.schema)
    (hf : falsy (adapterGet r "id") = false)
    (hh : c.pending.hasTeam (adapterGet r "id") = true) :
    insert_team r c = ⟨c, Option.none, false⟩ := by
  have hne : adapterGet r "id" ≠ .none := by
    intro h; rw [h] at hf; simp [falsy] at hf
  simp [insert_team, sqlInsertTeam, hm, hf, hh, hne]

theorem insert_player_new (r : Record) (c : Conn)
    (hm : "players_table" ∈ c.pending.schema)
    (hf : falsy (adapterGet r "player_id") = false)
    (hh : c.pending.hasPlayer (adapterGet r "player_id") = false) :
    insert_player r c =
      ⟨{ c with pending := { c.pending with players := c.pending.players ++
          [⟨adapterGet r "player_id", adapterGet r "player_name",
            adapterGet r "player_icon_url"⟩] } },
        Option.none, false⟩ := by
  have hne : adapterGet r "player_id" ≠ .none := by
    intro h; rw [h] at hf; simp [falsy] at hf
  simp [insert_player, sqlInsertPlayer, hm, hf, hh, hne]

theorem insert_player_dup (r : Record) (c : Conn)
    (hm : "players_table" ∈ c.pending.schema)
    (hf : falsy (adapterGet r "player_id") = false)
    (hh : c.pending.hasPlayer (adapterGet r "player_id") = true) :
    insert_player r c = ⟨c, Option.none, false⟩ := by
  have hne : adapterGet r "player_id" ≠ .none := by
    intro h; rw [h] at hf; simp [falsy] at hf
  simp [insert_player, sqlInsertPlayer, hm, hf, hh, hne]

/-- The roster duplicate-key predicate used by the ON CONFLICT target. -/
def rosterKeyIs (pid tid season : Value) (rr : RosterRow) : Bool :=
  rr.player_id == pid && rr.player_team_id == tid && rr.season == season

theorem insert_roster_new (r : Record) (c : Conn)
    (hm : "player_teams_by_season_table" ∈ c.pending.schema)
    (hf1 : falsy (adapterGet r "player_id") = false)
    (hf2 : falsy (adapterGet r "player_team_id") = false)
    (hf3 : falsy (adapterGet r "season") = false)
    (hfk1 : c.pending.hasPlayer (adapterGet r "player_id") = true)
    (hfk2 : c.pending.hasTeam (adapterGet r "player_team_id") = true)
    (hh : c.pending.rosters.any (rosterKeyIs (adapterGet r "player_id")
      (adapterGet r "player_team_id") (adapterGet r "season")) = false) :
    insert_player_team_by_season r c =
      ⟨{ c with pending := { c.pending with rosters := c.pending.rosters ++
          [⟨adapterGet r "player_id", adapterGet r "player_team_id",
            adapterGet r "season", adapterGet r "player_number"⟩] } },
        Option.none, false⟩ := by
  have hne1 : adapterGet r "player_id" ≠ .none := by
    intro h; rw [h] at hf1; simp [falsy] at hf1
  have hne2 : adapterGet r "player_team_id" ≠ .none := by
    intro h; rw [h] at hf2; simp [falsy] at hf2
  have hne3 : adapterGet r "season" ≠ .none := by
    intro h; rw [h] at hf3; simp [falsy] at hf3
  unfold rosterKeyIs at hh
  simp [insert_player_team_by_season, sqlInsertRoster, hm, hf1, hf2, hf3,
    hne1, hne2, hne3, hfk1, hfk2, hh]

theorem insert_roster_dup (r : Record) (c : Conn)
    (hm : "player_teams_by_season_table" ∈ c.pending.schema)
    (hf1 : falsy (adapterGet r "player_id") = false)
    (hf2 : falsy (adapterGet r "player_team_id") = false)
    (hf3 : falsy (adapterGet r "season") = false)
    (hfk1 : c.pending.hasPlayer (adapterGet r "player_id") = true)
    (hfk2 : c.pending.hasTeam (adapterGet r "player_team_id") = true)
    (hh : c.pending.rosters.any (rosterKeyIs (adapterGet r "player_id")
      (adapterGet r "player_team_id") (adapterGet r "season")) = true) :
    insert_player_team_by_season r c = ⟨c, Option.none, false⟩ := by
  have hne1 : adapterGet r "player_id" ≠ .none := by
    intro h; rw [h] at hf1; simp [falsy] at hf1
  have hne2 : adapterGet r "player_team_id" ≠ .none := by
    intro h; rw [h] at hf2; simp [falsy] at hf2
  have hne3 : adapterGet r "season" ≠ .none := by
    intro h; rw [h] at hf3; simp [falsy] at hf3
  unfold rosterKeyIs at hh
  simp [insert_player_team_by_season, sqlInsertRoster, hm, hf1, hf2, hf3,
    hne1, hne2, hne3, hfk1, hfk2, hh]

/-- A scope around one statement that succeeds: the scope commits the
statement's pending state and returns the connection. -/
theorem runScope_single_stmt_ok (c : Conn) (s : Stmt) (c' : Conn)
    (h : runStmt s (scopeEnter c) = (c', Option.none)) :
    runScope [c] [s] = some (Option.none,
      [{ c' with cursorOpen := false, committed := c'.pending }]) := by
  simp [runScope, runProg, h, scopeExit]

theorem team_within (r1 r2 : Record) (c : Conn)
    (hm : "teams_table" ∈ c.pending.schema)
    (hf : falsy (adapterGet r1 "id") = false)
    (hk : adapterGet r2 "id" = adapterGet r1 "id")
    (hh : c.pending.hasTeam (adapterGet r1 "id") = false) :
    (insert_team r1 c).exc = Option.none ∧
    insert_team r2 (insert_team r1 c).conn
      = ⟨(insert_team r1 c).conn, Option.none, false⟩ ∧
    (insert_team r1 c).conn.pending.teams.filter
        (fun t => t.id == adapterGet r1 "id")
      = [⟨adapterGet r1 "id", adapterGet r1 "name", adapterGet r1 "logo"⟩] := by
  rw [insert_team_new r1 c hm hf hh]
  refine ⟨rfl, ?_, ?_⟩
  · apply insert_team_dup
    · exact hm
    · rw [hk]; exact hf
    · simp [DB.hasTeam, List.any_append, hk]
  · show (c.pending.teams ++ _).filter _ = _
    rw [List.filter_append, filter_eq_nil_of_any_false _ _ hh]
    simp

theorem player_within (r1 r2 : Record) (c : Conn)
    (hm : "players_table" ∈ c.pending.schema)
    (hf : falsy (adapterGet r1 "player_id") = false)
    (hk : adapterGet r2 "player_id" = adapterGet r1 "player_id")
    (hh : c.pending.hasPlayer (adapterGet r1 "player_id") = false) :
    (insert_player r1 c).exc = Option.none ∧
    insert_player r2 (insert_player r1 c).conn
      = ⟨(insert_player r1 c).conn, Option.none, false⟩ ∧
    (insert_player r1 c).conn.pending.players.filter
        (fun t => t.id == adapterGet r1 "player_id")
      = [⟨adapterGet r1 "player_id", adapterGet r1 "player_name",
          adapterGet r1 "player_icon_url"⟩] := by
  rw [insert_player_new r1 c hm hf hh]
  refine ⟨rfl, ?_, ?_⟩
  · apply insert_player_dup
    · exact hm
    · rw [hk]; exact hf
    · simp [DB.hasPlayer, List.any_append, hk]
  · show (c.pending.players ++ _).filter _ = _
    rw [List.filter_append, filter_eq_nil_of_any_false _ _ hh]
    simp

theorem roster_within (r1 r2 : Record) (c : Conn)
    (hm : "player_teams_by_season_table" ∈ c.pending.schema)
    (hf1 : falsy (adapterGet r1 "player_id") = false)
    (hf2 : falsy (adapterGet r1 "player_team_id") = false)
    (hf3 : falsy (adapterGet r1 "season") = false)
    (hk1 : adapterGet r2 "player_id" = adapterGet r1 "player_id")
    (hk2 : adapterGet r2 "player_team_id" = adapterGet r1 "player_team_id")
    (hk3 : adapterGet r2 "season" = adapterGet r1 "season")
    (hfk1 : c.pending.hasPlayer (adapterGet r1 "player_id") = true)
    (hfk2 : c.pending.hasTeam (adapterGet r1 "player_team_id") = true)
    (hh : c.pending.rosters.any (rosterKeyIs (adapterGet r1 "player_id")
      (adapterGet r1 "player_team_id") (adapterGet r1 "season")) = false) :
    (insert_player_team_by_season r1 c).exc = Option.none ∧
    insert_player_team_by_season r2 (insert_player_team_by_season r1 c).conn
      = ⟨(insert_player_team_by_season r1 c).conn, Option.none, false⟩ ∧
    (insert_player_team_by_season r1 c).conn.pending.rosters.filter
        (rosterKeyIs (adapterGet r1 "player_id")
          (adapterGet r1 "player_team_id") (adapterGet r1 "season"))
      = [⟨adapterGet r1 "player_id", adapterGet r1 "player_team_id",
          adapterGet r1 "season", adapterGet r1 "player_number"⟩] := by
  rw [insert_roster_new r1 c hm hf1 hf2 hf3 hfk1 hfk2 hh]
  refine ⟨rfl, ?_, ?_⟩
  · apply insert_roster_dup
    · exact hm
    · rw [hk1]; exact hf1
    · rw [hk2]; exact hf2
    · rw [hk3]; exact hf3
    · rw [hk1]; exact hfk1
    · rw [hk2]; exact hfk2
    · simp [List.any_append, hk1, hk2, hk3, rosterKeyIs]
  · show (c.pending.rosters ++ _).filter _ = _
    rw [List.filter_append, filter_eq_nil_of_any_false _ _ hh]
    simp [rosterKeyIs]

theorem team_cross (d : DB) (r1 r2 : Record)
    (hm : "teams_table" ∈ d.schema)
    (hf : falsy (adapterGet r1 "id") = false)
    (hk : adapterGet r2 "id" = adapterGet r1 "id")
    (hh : d.hasTeam (adapterGet r1 "id") = false) :
    runScope [mkConn d] [Stmt.team r1] = some (Option.none,
      [mkConn { d with teams := d.teams ++
        [⟨adapterGet r1 "id", adapterGet r1 "name", adapterGet r1 "logo"⟩] }]) ∧
    runScope [mkConn { d with teams := d.teams ++
        [⟨adapterGet r1 "id", adapterGet r1 "name", adapterGet r1 "logo"⟩] }]
        [Stmt.team r2]
      = some (Option.none, [mkConn { d with teams := d.teams ++
        [⟨adapterGet r1 "id", adapterGet r1 "name", adapterGet r1 "logo"⟩] }]) := by
  constructor
  · have h2 : runStmt (Stmt.team r1) (scopeEnter (mkConn d)) =
        ({ scopeEnter (mkConn d) with pending := { d with teams := d.teams ++
          [⟨adapterGet r1 "id", adapterGet r1 "name", adapterGet r1 "logo"⟩] } },
          Option.none) := by
      show ((insert_team r1 _).conn, (insert_team r1 _).exc) = _
      rw [insert_team_new r1 _ hm hf hh]
      rfl
    exact runScope_single_stmt_ok _ _ _ h2
  · have h3 := insert_team_dup r2
      (scopeEnter (mkConn { d with teams := d.teams ++
        [⟨adapterGet r1 "id", adapterGet r1 "name", adapterGet r1 "logo"⟩] }))
      hm (hk ▸ hf) (by simp [DB.hasTeam, scopeEnter, mkConn, List.any_append, hk])
    have h4 : runStmt (Stmt.team r2)
        (scopeEnter (mkConn { d with teams := d.teams ++
          [⟨adapterGet r1 "id", adapterGet r1 "name", adapterGet r1 "logo"⟩] })) =
        (scopeEnter (mkConn { d with teams := d.teams ++
          [⟨adapterGet r1 "id", adapterGet r1 "name", adapterGet r1 "logo"⟩] }),
          Option.none) := by
      show ((insert_team r2 _).conn, (insert_team r2 _).exc) = _
      rw [h3]
    exact runScope_single_stmt_ok _ _ _ h4

theorem player_cross (d : DB) (r1 r2 : Record)
    (hm : "players_table" ∈ d.schema)
    (hf : falsy (adapterGet r1 "player_id") = false)
    (hk : adapterGet r2 "player_id" = adapterGet r1 "player_id")
    (hh : d.hasPlayer (adapterGet r1 "player_id") = false) :
    runScope [mkConn d] [Stmt.player r1] = some (Option.none,
      [mkConn { d with players := d.players ++
        [⟨adapterGet r1 "player_id", adapterGet r1 "player_name",
          adapterGet r1 "player_icon_url"⟩] }]) ∧
    runScope [mkConn { d with players := d.players ++
        [⟨adapterGet r1 "player_id", adapterGet r1 "player_name",
          adapterGet r1 "player_icon_url"⟩] }] [Stmt.player r2]
      = some (Option.none, [mkConn { d with players := d.players ++
        [⟨adapterGet r1 "player_id", adapterGet r1 "player_name",
          adapterGet r1 "player_icon_url"⟩] }]) := by
  constructor
  · have h2 : runStmt (Stmt.player r1) (scopeEnter (mkConn d)) =
        ({ scopeEnter (mkConn d) with pending := { d with players := d.players ++
          [⟨adapterGet r1 "player_id", adapterGet r1 "player_name",
            adapterGet r1 "player_icon_url"⟩] } }, Option.none) := by
      show ((insert_player r1 _).conn, (insert_player r1 _).exc) = _
      rw [insert_player_new r1 _ hm hf hh]
      rfl
    exact runScope_single_stmt_ok _ _ _ h2
  · have h3 := insert_player_dup r2
      (scopeEnter (mkConn { d with players := d.players ++
        [⟨adapterGet r1 "player_id", adapterGet r1 "player_name",
          adapterGet r1 "player_icon_url"⟩] }))
      hm (hk ▸ hf) (by simp [DB.hasPlayer, scopeEnter, mkConn, List.any_append, hk])
    have h4 : runStmt (Stmt.player r2)
        (scopeEnter (mkConn { d with players := d.players ++
          [⟨adapterGet r1 "player_id", adapterGet r1 "player_name",
            adapterGet r1 "player_icon_url"⟩] })) =
        (scopeEnter (mkConn { d with players := d.players ++
          [⟨adapterGet r1 "player_id", adapterGet r1 "player_name",
            adapterGet r1 "player_icon_url"⟩] }), Option.none) := by
      show ((insert_player r2 _).conn, (insert_player r2 _).exc) = _
      rw [h3]
    exact runScope_single_stmt_ok _ _ _ h4

theorem roster_cross (d : DB) (r1 r2 : Record)
    (hm : "player_teams_by_season_table" ∈ d.schema)
    (hf1 : falsy (adapterGet r1 "player_id") = false)
    (hf2 : falsy (adapterGet r1 "player_team_id") = false)
    (hf3 : falsy (adapterGet r1 "season") = false)
    (hk1 : adapterGet r2 "player_id" = adapterGet r1 "player_id")
    (hk2 : adapterGet r2 "player_team_id" = adapterGet r1 "player_team_id")
    (hk3 : adapterGet r2 "season" = adapterGet r1 "season")
    (hfk1 : d.hasPlayer (adapterGet r1 "player_id") = true)
    (hfk2 : d.hasTeam (adapterGet r1 "player_team_id") = true)
    (hh : d.rosters.any (rosterKeyIs (adapterGet r1 "player_id")
      (adapterGet r1 "player_team_id") (adapterGet r1 "season")) = false) :
    runScope [mkConn d] [Stmt.roster r1] = some (Option.none,
      [mkConn { d with rosters := d.rosters ++
        [⟨adapterGet r1 "player_id", adapterGet r1 "player_team_id",
          adapterGet r1 "season", adapterGet r1 "player_number"⟩] }]) ∧
    runScope [mkConn { d with rosters := d.rosters ++
        [⟨adapterGet r1 "player_id", adapterGet r1 "player_team_id",
          adapterGet r1 "season", adapterGet r1 "player_number"⟩] }]
        [Stmt.roster r2]
      = some (Option.none, [mkConn { d with rosters := d.rosters ++
        [⟨adapterGet r1 "player_id", adapterGet r1 "player_team_id",
          adapterGet r1 "season", adapterGet r1 "player_number"⟩] }]) := by
  constructor
  · have h2 : runStmt (Stmt.roster r1) (scopeEnter (mkConn d)) =
        ({ scopeEnter (mkConn d) with pending := { d with rosters := d.rosters ++
          [⟨adapterGet r1 "player_id", adapterGet r1 "player_team_id",
            adapterGet r1 "season", adapterGet r1 "player_number"⟩] } },
          Option.none) := by
      show ((insert_player_team_by_season r1 _).conn,
        (insert_player_team_by_season r1 _).exc) = _
      rw [insert_roster_new r1 _ hm hf1 hf2 hf3 hfk1 hfk2 hh]
      rfl
    exact runScope_single_stmt_ok _ _ _ h2
  · have h3 := insert_roster_dup r2
      (scopeEnter (mkConn { d with rosters := d.rosters ++
        [⟨adapterGet r1 "player_id", adapterGet r1 "player_team_id",
          adapterGet r1 "season", adapterGet r1 "player_number"⟩] }))
      hm (hk1 ▸ hf1) (hk2 ▸ hf2) (hk3 ▸ hf3) (hk1 ▸ hfk1) (hk2 ▸ hfk2)
      (by simp [scopeEnter, mkConn, List.any_append, hk1, hk2, hk3, rosterKeyIs])
    have h4 : runStmt (Stmt.roster r2)
        (scopeEnter (mkConn { d with rosters := d.rosters ++
          [⟨adapterGet r1 "player_id", adapterGet r1 "player_team_id",
            adapterGet r1 "season", adapterGet r1 "player_number"⟩] })) =
        (scopeEnter (mkConn { d with rosters := d.rosters ++
          [⟨adapterGet r1 "player_id", adapterGet r1 "player_team_id",
            adapterGet r1 "season", adapterGet r1 "player_number"⟩] }),
          Option.none) := by
      show ((insert_player_team_by_season r2 _).conn,
        (insert_player_team_by_season r2 _).exc) = _
      rw [h3]
    exact runScope_single_stmt_ok _ _ _ h4

theorem filter_key_append {α : Type} (l : List α) (p : α → Bool) (a : α)
    (h : l.any p = false) (ha : p a = true) : (l ++ [a]).filter p = [a] := by
  rw [List.filter_append, filter_eq_nil_of_any_false _ _ h]
  simp [ha]

/-- Claim C3: for the idempotent writers (team, player, roster-season link),
writing the same key twice — within one scope or across two committed
scopes — leaves exactly one stored row carrying the first write's non-key
values; the second write is silently absorbed (a no-op that raises
nothing). -/
theorem idempotent_conflict_policy :
    (∀ (r1 r2 : Record) (c : Conn),
        "teams_table" ∈ c.pending.schema →
        falsy (adapterGet r1 "id") = false →
        adapterGet r2 "id" = adapterGet r1 "id" →
        c.pending.hasTeam (adapterGet r1 "id") = false →
        (insert_team r1 c).exc = Option.none ∧
        insert_team r2 (insert_team r1 c).conn
          = ⟨(insert_team r1 c).conn, Option.none, false⟩ ∧
        (insert_team r1 c).conn.pending.teams.filter
            (fun t => t.id == adapterGet r1 "id")
          = [⟨adapterGet r1 "id", adapterGet r1 "name", adapterGet r1 "logo"⟩]) ∧
    (∀ (d : DB) (r1 r2 : Record),
        "teams_table" ∈ d.schema →
        falsy (adapterGet r1 "id") = false →
        adapterGet r2 "id" = adapterGet r1 "id" →
        d.hasTeam (adapterGet r1 "id") = false →
        runScope [mkConn d] [Stmt.team r1] = some (Option.none,
          [mkConn { d with teams := d.teams ++
            [⟨adapterGet r1 "id", adapterGet r1 "name", adapterGet r1 "logo"⟩] }]) ∧
        runScope [mkConn { d with teams := d.teams ++
            [⟨adapterGet r1 "id", adapterGet r1 "name", adapterGet r1 "logo"⟩] }]
            [Stmt.team r2]
          = some (Option.none, [mkConn { d with teams := d.teams ++
            [⟨adapterGet r1 "id", adapterGet r1 "name",
              adapterGet r1 "logo"⟩] }]) ∧
        (d.teams ++ [(⟨adapterGet r1 "id", adapterGet r1 "name",
            adapterGet r1 "logo"⟩ : TeamRow)]).filter
            (fun t => t.id == adapterGet r1 "id")
          = [⟨adapterGet r1 "id", adapterGet r1 "name", adapterGet r1 "logo"⟩]) ∧
    (∀ (r1 r2 : Record) (c : Conn),
        "players_table" ∈ c.pending.schema →
        falsy (adapterGet r1 "player_id") = false →
        adapterGet r2 "player_id" = adapterGet r1 "player_id" →
        c.pending.hasPlayer (adapterGet r1 "player_id") = false →
        (insert_player r1 c).exc = Option.none ∧
        insert_player r2 (insert_player r1 c).conn
          = ⟨(insert_player r1 c).conn, Option.none, false⟩ ∧
        (insert_player r1 c).conn.pending.players.filter
            (fun t => t.id == adapterGet r1 "player_id")
          = [⟨adapterGet r1 "player_id", adapterGet r1 "player_name",
              adapterGet r1 "player_icon_url"⟩]) ∧
    (∀ (d : DB) (r1 r2 : Record),
        "players_table" ∈ d.schema →
        falsy (adapterGet r1 "player_id") = false →
        adapterGet r2 "player_id" = adapterGet r1 "player_id" →
        d.hasPlayer (adapterGet r1 "player_id") = false →
        runScope [mkConn d] [Stmt.player r1] = some (Option.none,
          [mkConn { d with players := d.players ++
            [⟨adapterGet r1 "player_id", adapterGet r1 "player_name",
              adapterGet r1 "player_icon_url"⟩] }]) ∧
        runScope [mkConn { d with players := d.players ++
            [⟨adapterGet r1 "player_id", adapterGet r1 "player_name",
              adapterGet r1 "player_icon_url"⟩] }] [Stmt.player r2]
          = some (Option.none, [mkConn { d with players := d.players ++
            [⟨adapterGet r1 "player_id", adapterGet r1 "player_name",
              adapterGet r1 "player_icon_url"⟩] }]) ∧
        (d.players ++ [(⟨adapterGet r1 "player_id",
            adapterGet r1 "player_name",
            adapterGet r1 "player_icon_url"⟩ : PlayerRow)]).filter
            (fun t => t.id == adapterGet r1 "player_id")
          = [⟨adapterGet r1 "player_id", adapterGet r1 "player_name",
              adapterGet r1 "player_icon_url"⟩]) ∧
    (∀ (r1 r2 : Record) (c : Conn),
        "player_teams_by_season_table" ∈ c.pending.schema →
        falsy (adapterGet r1 "player_id") = false →
        falsy (adapterGet r1 "player_team_id") = false →
        falsy (adapterGet r1 "season") = false →
        adapterGet r2 "player_id" = adapterGet r1 "player_id" →
        adapterGet r2 "player_team_id" = adapterGet r1 "player_team_id" →
        adapterGet r2 "season" = adapterGet r1 "season" →
        c.pending.hasPlayer (adapterGet r1 "player_id") = true →
        c.pending.hasTeam (adapterGet r1 "player_team_id") = true →
        c.pending.rosters.any (rosterKeyIs (adapterGet r1 "player_id")
          (adapterGet r1 "player_team_id") (adapterGet r1 "season")) = false →
        (insert_player_team_by_season r1 c).exc = Option.none ∧
        insert_player_team_by_season r2
            (insert_player_team_by_season r1 c).conn
          = ⟨(insert_player_team_by_season r1 c).conn, Option.none, false⟩ ∧
        (insert_player_team_by_season r1 c).conn.pending.rosters.filter
            (rosterKeyIs (adapterGet r1 "player_id")
              (adapterGet r1 "player_team_id") (adapterGet r1 "season"))
          = [⟨adapterGet r1 "player_id", adapterGet r1 "player_team_id",
              adapterGet r1 "season", adapterGet r1 "player_number"⟩]) ∧
    (∀ (d : DB) (r1 r2 : Record),
        "player_teams_by_season_table" ∈ d.schema →
        falsy (adapterGet r1 "player_id") = false →
        falsy (adapterGet r1 "player_team_id") = false →
        falsy (adapterGet r1 "season") = false →
        adapterGet r2 "player_id" = adapterGet r1 "player_id" →
        adapterGet r2 "player_team_id" = adapterGet r1 "player_team_id" →
        adapterGet r2 "season" = adapterGet r1 "season" →
        d.hasPlayer (adapterGet r1 "player_id") = true →
        d.hasTeam (adapterGet r1 "player_team_id") = true →
        d.rosters.any (rosterKeyIs (adapterGet r1 "player_id")
          (adapterGet r1 "player_team_id") (adapterGet r1 "season")) = false →
        runScope [mkConn d] [Stmt.roster r1] = some (Option.none,
          [mkConn { d with rosters := d.rosters ++
            [⟨adapterGet r1 "player_id", adapterGet r1 "player_team_id",
              adapterGet r1 "season", adapterGet r1 "player_number"⟩] }]) ∧
        runScope [mkConn { d with rosters := d.rosters ++
            [⟨adapterGet r1 "player_id", adapterGet r1 "player_team_id",
              adapterGet r1 "season", adapterGet r1 "player_number"⟩] }]
            [Stmt.roster r2]
          = some (Option.none, [mkConn { d with rosters := d.rosters ++
            [⟨adapterGet r1 "player_id", adapterGet r1 "player_team_id",
              adapterGet r1 "season", adapterGet r1 "player_number"⟩] }]) ∧
        (d.rosters ++ [(⟨adapterGet r1 "player_id",
            adapterGet r1 "player_team_id", adapterGet r1 "season",
            adapterGet r1 "player_number"⟩ : RosterRow)]).filter
            (rosterKeyIs (adapterGet r1 "player_id")
              (adapterGet r1 "player_team_id") (adapterGet r1 "season"))
          = [⟨adapterGet r1 "player_id", adapterGet r1 "player_team_id",
              adapterGet r1 "season", adapterGet r1 "player_number"⟩]) := by
  refine ⟨team_within, ?_, player_within, ?_, roster_within, ?_⟩
  · intro d r1 r2 hm hf hk hh
    obtain ⟨h1, h2⟩ := team_cross d r1 r2 hm hf hk hh
    exact ⟨h1, h2, filter_key_append _ _ ⟨adapterGet r1 "id",
      adapterGet r1 "name", adapterGet r1 "logo"⟩ hh (by simp)⟩
  · intro d r1 r2 hm hf hk hh
    obtain ⟨h1, h2⟩ := player_cross d r1 r2 hm hf hk hh
    exact ⟨h1, h2, filter_key_append _ _ ⟨adapterGet r1 "player_id",
      adapterGet r1 "player_name", adapterGet r1 "player_icon_url"⟩ hh (by simp)⟩
  · intro d r1 r2 hm hf1 hf2 hf3 hk1 hk2 hk3 hfk1 hfk2 hh
    obtain ⟨h1, h2⟩ := roster_cross d r1 r2 hm hf1 hf2 hf3 hk1 hk2 hk3 hfk1 hfk2 hh
    exact ⟨h1, h2, filter_key_append _ _ ⟨adapterGet r1 "player_id",
      adapterGet r1 "player_team_id", adapterGet r1 "season",
      adapterGet r1 "player_number"⟩ hh (by simp [rosterKeyIs])⟩

theorem idempotent_conflict_policy_witness :
    ("teams_table" ∈ (mkConn dbSeed).pending.schema ∧
      falsy (adapterGet rT1 "id") = false ∧
      adapterGet rT2 "id" = adapterGet rT1 "id" ∧
      (mkConn dbSeed).pending.hasTeam (adapterGet rT1 "id") = false) ∧
    ((insert_team rT1 (mkConn dbSeed)).exc = Option.none ∧
      insert_team rT2 (insert_team rT1 (mkConn dbSeed)).conn
        = ⟨(insert_team rT1 (mkConn dbSeed)).conn, Option.none, false⟩ ∧
      (insert_team rT1 (mkConn dbSeed)).conn.pending.teams.filter
          (fun t => t.id == adapterGet rT1 "id")
        = [⟨adapterGet rT1 "id", adapterGet rT1 "name", adapterGet rT1 "logo"⟩]) ∧
    (runScope [mkConn dbSeed] [Stmt.team rT1] = some (Option.none,
        [mkConn { dbSeed with teams := dbSeed.teams ++
          [⟨adapterGet rT1 "id", adapterGet rT1 "name", adapterGet rT1 "logo"⟩] }]) ∧
      runScope [mkConn { dbSeed with teams := dbSeed.teams ++
          [⟨adapterGet rT1 "id", adapterGet rT1 "name", adapterGet rT1 "logo"⟩] }]
          [Stmt.team rT2]
        = some (Option.none, [mkConn { dbSeed with teams := dbSeed.teams ++
          [⟨adapterGet rT1 "id", adapterGet rT1 "name",
            adapterGet rT1 "logo"⟩] }]) ∧
      (dbSeed.teams ++ [(⟨adapterGet rT1 "id", adapterGet rT1 "name",
          adapterGet rT1 "logo"⟩ : TeamRow)]).filter
          (fun t => t.id == adapterGet rT1 "id")
        = [⟨adapterGet rT1 "id", adapterGet rT1 "name", adapterGet rT1 "logo"⟩]) ∧
    ((insert_player rP1 (mkConn dbSeed)).exc = Option.none ∧
      insert_player rP2 (insert_player rP1 (mkConn dbSeed)).conn
        = ⟨(insert_player rP1 (mkConn dbSeed)).conn, Option.none, false⟩ ∧
      (insert_player rP1 (mkConn dbSeed)).conn.pending.players.filter
          (fun t => t.id == adapterGet rP1 "player_id")
        = [⟨adapterGet rP1 "player_id", adapterGet rP1 "player_name",
            adapterGet rP1 "player_icon_url"⟩]) ∧
    (runScope [mkConn dbSeed] [Stmt.player rP1] = some (Option.none,
        [mkConn { dbSeed with players := dbSeed.players ++
          [⟨adapterGet rP1 "player_id", adapterGet rP1 "player_name",
            adapterGet rP1 "player_icon_url"⟩] }]) ∧
      runScope [mkConn { dbSeed with players := dbSeed.players ++
          [⟨adapterGet rP1 "player_id", adapterGet rP1 "player_name",
            adapterGet rP1 "player_icon_url"⟩] }] [Stmt.player rP2]
        = some (Option.none, [mkConn { dbSeed with players := dbSeed.players ++
          [⟨adapterGet rP1 "player_id", adapterGet rP1 "player_name",
            adapterGet rP1 "player_icon_url"⟩] }]) ∧
      (dbSeed.players ++ [(⟨adapterGet rP1 "player_id",
          adapterGet rP1 "player_name",
          adapterGet rP1 "player_icon_url"⟩ : PlayerRow)]).filter
          (fun t => t.id == adapterGet rP1 "player_id")
        = [⟨adapterGet rP1 "player_id", adapterGet rP1 "player_name",
            adapterGet rP1 "player_icon_url"⟩]) ∧
    ((insert_player_team_by_season rR1 (mkConn dbSeed)).exc = Option.none ∧
      insert_player_team_by_season rR2
          (insert_player_team_by_season rR1 (mkConn dbSeed)).conn
        = ⟨(insert_player_team_by_season rR1 (mkConn dbSeed)).conn,
            Option.none, false⟩ ∧
      (insert_player_team_by_season rR1 (mkConn dbSeed)).conn.pending.rosters.filter
          (rosterKeyIs (adapterGet rR1 "player_id")
            (adapterGet rR1 "player_team_id") (adapterGet rR1 "season"))
        = [⟨adapterGet rR1 "player_id", adapterGet rR1 "player_team_id",
            adapterGet rR1 "season", adapterGet rR1 "player_number"⟩]) ∧
    (runScope [mkConn dbSeed] [Stmt.roster rR1] = some (Option.none,
        [mkConn { dbSeed with rosters := dbSeed.rosters ++
          [⟨adapterGet rR1 "player_id", adapterGet rR1 "player_team_id",
            adapterGet rR1 "season", adapterGet rR1 "player_number"⟩] }]) ∧
      runScope [mkConn { dbSeed with rosters := dbSeed.rosters ++
          [⟨adapterGet rR1 "player_id", adapterGet rR1 "player_team_id",
            adapterGet rR1 "season", adapterGet rR1 "player_number"⟩] }]
          [Stmt.roster rR2]
        = some (Option.none, [mkConn { dbSeed with rosters := dbSeed.rosters ++
          [⟨adapterGet rR1 "player_id", adapterGet rR1 "player_team_id",
            adapterGet rR1 "season", adapterGet rR1 "player_number"⟩] }]) ∧
      (dbSeed.rosters ++ [(⟨adapterGet rR1 "player_id",
          adapterGet rR1 "player_team_id", adapterGet rR1 "season",
          adapterGet rR1 "player_number"⟩ : RosterRow)]).filter
          (rosterKeyIs (adapterGet rR1 "player_id")
            (adapterGet rR1 "player_team_id") (adapterGet rR1 "season"))
        = [⟨adapterGet rR1 "player_id", adapterGet rR1 "player_team_id",
            adapterGet rR1 "season", adapterGet rR1 "player_number"⟩]) :=
  ⟨⟨by decide, by decide, by decide, by decide⟩,
    idempotent_conflict_policy.1 rT1 rT2 (mkConn dbSeed)
      (by decide) (by decide) (by decide) (by decide),
    idempotent_conflict_policy.2.1 dbSeed rT1 rT2
      (by decide) (by decide) (by decide) (by decide),
    idempotent_conflict_policy.2.2.1 rP1 rP2 (mkConn dbSeed)
      (by decide) (by decide) (by decide) (by decide),
    idempotent_conflict_policy.2.2.2.1 dbSeed rP1 rP2
      (by decide) (by decide) (by decide) (by decide),
    idempotent_conflict_policy.2.2.2.2.1 rR1 rR2 (mkConn dbSeed)
      (by decide) (by decide) (by decide) (by decide) (by decide) (by decide)
      (by decide) (by decide) (by decide) (by decide),
    idempotent_conflict_policy.2.2.2.2.2 dbSeed rR1 rR2
      (by decide) (by decide) (by decide) (by decide) (by decide) (by decide)
      (by decide) (by decide) (by decide) (by decide)⟩

theorem insert_game_new (r : Record) (c : Conn)
    (hm : "games_table" ∈ c.pending.schema)
    (hf : falsy (adapterGet r "game_id") = false)
    (hfk : (fkOk ((gameRowOf r).home_team_id == .none)
        (c.pending.hasTeam (gameRowOf r).home_team_id) &&
      fkOk ((gameRowOf r).away_team_id == .none)
        (c.pending.hasTeam (gameRowOf r).away_team_id)) = true)
    (hh : c.pending.hasGame (adapterGet r "game_id") = false) :
    insert_game r c = ⟨{ c with pending := { c.pending with
      games := c.pending.games ++ [gameRowOf r] } }, Option.none, false⟩ := by
  have hne : adapterGet r "game_id" ≠ .none := by
    intro h; rw [h] at hf; simp [falsy] at hf
  have hid : (gameRowOf r).id = adapterGet r "game_id" := rfl
  simp [insert_game, sqlInsertGame, hm, hf, hh, hne, hfk, hid]

theorem insert_game_update (r : Record) (c : Conn)
    (hm : "games_table" ∈ c.pending.schema)
    (hf : falsy (adapterGet r "game_id") = false)
    (hfk : (fkOk ((gameRowOf r).home_team_id == .none)
        (c.pending.hasTeam (gameRowOf r).home_team_id) &&
      fkOk ((gameRowOf r).away_team_id == .none)
        (c.pending.hasTeam (gameRowOf r).away_team_id)) = true)
    (hh : c.pending.hasGame (adapterGet r "game_id") = true) :
    insert_game r c = ⟨{ c with pending := { c.pending with
      games := c.pending.games.map (fun x =>
        if x.id == adapterGet r "game_id" then gameRowOf r else x) } },
      Option.none, false⟩ := by
  have hne : adapterGet r "game_id" ≠ .none := by
    intro h; rw [h] at hf; simp [falsy] at hf
  have hid : (gameRowOf r).id = adapterGet r "game_id" := rfl
  simp [insert_game, sqlInsertGame, hm, hf, hh, hne, hfk, hid]

theorem map_replace_no_match (L : List GameRow) (v : Value) (g : GameRow)
    (h : L.any (fun r => r.id == v) = false) :
    L.map (fun x => if x.id == v then g else x) = L := by
  induction L with
  | nil => rfl
  | cons a t ih =>
    simp only [List.any_cons, Bool.or_eq_false_iff] at h
    have hcond : ¬ ((a.id == v) = true) := by simp [h.1]
    rw [List.map_cons, if_neg hcond, ih h.2]

/-- Claim C4: writing the same game id twice with (possibly) differing
non-key values succeeds both times and leaves exactly one stored row for
that id, and that row is exactly the second write's row: every non-key
column holds the second write's value (last writer wins). -/
theorem game_last_writer_wins (r1 r2 : Record) (c : Conn)
    (hm : "games_table" ∈ c.pending.schema)
    (hf : falsy (adapterGet r1 "game_id") = false)
    (hk : adapterGet r2 "game_id" = adapterGet r1 "game_id")
    (hfk1 : (fkOk ((gameRowOf r1).home_team_id == .none)
        (c.pending.hasTeam (gameRowOf r1).home_team_id) &&
      fkOk ((gameRowOf r1).away_team_id == .none)
        (c.pending.hasTeam (gameRowOf r1).away_team_id)) = true)
    (hfk2 : (fkOk ((gameRowOf r2).home_team_id == .none)
        (c.pending.hasTeam (gameRowOf r2).home_team_id) &&
      fkOk ((gameRowOf r2).away_team_id == .none)
        (c.pending.hasTeam (gameRowOf r2).away_team_id)) = true)
    (hh : c.pending.hasGame (adapterGet r1 "game_id") = false) :
    (insert_game r1 c).exc = Option.none ∧
    (insert_game r2 (insert_game r1 c).conn).exc = Option.none ∧
    (insert_game r2 (insert_game r1 c).conn).conn.pending.games.filter
        (fun g => g.id == adapterGet r1 "game_id") = [gameRowOf r2] := by
  have hf2 : falsy (adapterGet r2 "game_id") = false := by rw [hk]; exact hf
  have hh2 : ({ c.pending with games := c.pending.games ++
      [gameRowOf r1] } : DB).hasGame (adapterGet r2 "game_id") = true := by
    have hid : (gameRowOf r1).id = adapterGet r1 "game_id" := rfl
    simp [DB.hasGame, List.any_append, hk, hid]
  have h1 := insert_game_new r1 c hm hf hfk1 hh
  have h2 := insert_game_update r2
    { c with pending := { c.pending with
      games := c.pending.games ++ [gameRowOf r1] } } hm hf2 hfk2 hh2
  rw [h1]
  dsimp only
  rw [h2]
  dsimp only
  refine ⟨rfl, rfl, ?_⟩
  show ((c.pending.games ++ [gameRowOf r1]).map _).filter _ = _
  rw [List.map_append]
  have hg1 : ((gameRowOf r1).id == adapterGet r2 "game_id") = true := by
    have : (gameRowOf r1).id = adapterGet r1 "game_id" := rfl
    simp [this, hk]
  have hmap1 : ([gameRowOf r1].map (fun x =>
      if x.id == adapterGet r2 "game_id" then gameRowOf r2 else x))
      = [gameRowOf r2] := by
    rw [List.map_cons, List.map_nil, if_pos hg1]
  have hnom : c.pending.games.any
      (fun r => r.id == adapterGet r2 "game_id") = false := by
    rw [hk]; exact hh
  rw [hmap1, map_replace_no_match _ _ _ hnom]
  apply filter_key_append
  · exact hh
  · have : (gameRowOf r2).id = adapterGet r2 "game_id" := rfl
    simp [this, hk]

theorem game_last_writer_wins_witness :
    ("games_table" ∈ (mkConn dbSeed).pending.schema ∧
      falsy (adapterGet rG1 "game_id") = false ∧
      adapterGet rG2 "game_id" = adapterGet rG1 "game_id" ∧
      (mkConn dbSeed).pending.hasGame (adapterGet rG1 "game_id") = false) ∧
    (insert_game rG1 (mkConn dbSeed)).exc = Option.none ∧
    (insert_game rG2 (insert_game rG1 (mkConn dbSeed)).conn).exc
      = Option.none ∧
    (insert_game rG2
        (insert_game rG1 (mkConn dbSeed)).conn).conn.pending.games.filter
        (fun g => g.id == adapterGet rG1 "game_id") = [gameRowOf rG2] :=
  ⟨⟨by decide, by decide, by decide, by decide⟩,
    game_last_writer_wins rG1 rG2 (mkConn dbSeed)
      (by decide) (by decide) (by decide) (by decide) (by decide) (by decide)⟩

theorem insert_shot_ok (r : Record) (c : Conn)
    (hm : "shots_table" ∈ c.pending.schema)
    (hf1 : falsy (adapterGet r "player_id") = false)
    (hf2 : falsy (adapterGet r "game_id") = false)
    (hf3 : falsy (adapterGet r "team_id") = false)
    (hfk1 : c.pending.hasPlayer (adapterGet r "player_id") = true)
    (hfk2 : c.pending.hasGame (adapterGet r "game_id") = true)
    (hfk3 : c.pending.hasTeam (adapterGet r "team_id") = true) :
    insert_shot r c = ⟨{ c with pending := { c.pending with
      shots := c.pending.shots ++ [⟨c.pending.shotSeq,
        adapterGet r "player_id", adapterGet r "game_id",
        adapterGet r "team_id", adapterGet r "shot_quarter",
        adapterGet r "shot_time", adapterGet r "shot_type",
        adapterGet r "shot_x_location", adapterGet r "shot_y_location"⟩],
      shotSeq := c.pending.shotSeq + 1 } }, Option.none, false⟩ := by
  simp [insert_shot, sqlInsertShot, hm, hf1, hf2, hf3, hfk1, hfk2, hfk3, fkOk]

/-- Claim C5: an accepted shot write (required fields present and
referencing existing rows) appends exactly one new row, and writing two
records with identical field values produces two distinct stored rows
(their surrogate ids differ). -/
theorem shot_append_only (r : Record) (c : Conn)
    (hm : "shots_table" ∈ c.pending.schema)
    (hf1 : falsy (adapterGet r "player_id") = false)
    (hf2 : falsy (adapterGet r "game_id") = false)
    (hf3 : falsy (adapterGet r "team_id") = false)
    (hfk1 : c.pending.hasPlayer (adapterGet r "player_id") = true)
    (hfk2 : c.pending.hasGame (adapterGet r "game_id") = true)
    (hfk3 : c.pending.hasTeam (adapterGet r "team_id") = true) :
    (insert_shot r c).exc = Option.none ∧
    (insert_shot r c).conn.pending.shots = c.pending.shots ++
      [⟨c.pending.shotSeq, adapterGet r "player_id", adapterGet r "game_id",
        adapterGet r "team_id", adapterGet r "shot_quarter",
        adapterGet r "shot_time", adapterGet r "shot_type",
        adapterGet r "shot_x_location", adapterGet r "shot_y_location"⟩] ∧
    (insert_shot r (insert_shot r c).conn).exc = Option.none ∧
    (insert_shot r (insert_shot r c).conn).conn.pending.shots
      = c.pending.shots ++
      [⟨c.pending.shotSeq, adapterGet r "player_id", adapterGet r "game_id",
        adapterGet r "team_id", adapterGet r "shot_quarter",
        adapterGet r "shot_time", adapterGet r "shot_type",
        adapterGet r "shot_x_location", adapterGet r "shot_y_location"⟩,
       ⟨c.pending.shotSeq + 1, adapterGet r "player_id",
        adapterGet r "game_id", adapterGet r "team_id",
        adapterGet r "shot_quarter", adapterGet r "shot_time",
        adapterGet r "shot_type", adapterGet r "shot_x_location",
        adapterGet r "shot_y_location"⟩] ∧
    (⟨c.pending.shotSeq, adapterGet r "player_id", adapterGet r "game_id",
        adapterGet r "team_id", adapterGet r "shot_quarter",
        adapterGet r "shot_time", adapterGet r "shot_type",
        adapterGet r "shot_x_location", adapterGet r "shot_y_location"⟩
      : ShotRow) ≠
    (⟨c.pending.shotSeq + 1, adapterGet r "player_id",
        adapterGet r "game_id", adapterGet r "team_id",
        adapterGet r "shot_quarter", adapterGet r "shot_time",
        adapterGet r "shot_type", adapterGet r "shot_x_location",
        adapterGet r "shot_y_location"⟩ : ShotRow) := by
  have h1 := insert_shot_ok r c hm hf1 hf2 hf3 hfk1 hfk2 hfk3
  have h2 := insert_shot_ok r
    { c with pending := { c.pending with
      shots := c.pending.shots ++ [⟨c.pending.shotSeq,
        adapterGet r "player_id", adapterGet r "game_id",
        adapterGet r "team_id", adapterGet r "shot_quarter",
        adapterGet r "shot_time", adapterGet r "shot_type",
        adapterGet r "shot_x_location", adapterGet r "shot_y_location"⟩],
      shotSeq := c.pending.shotSeq + 1 } }
    hm hf1 hf2 hf3 hfk1 hfk2 hfk3
  rw [h1]
  dsimp only
  rw [h2]
  dsimp only
  refine ⟨rfl, rfl, rfl, ?_, ?_⟩
  · rw [List.append_assoc]
    rfl
  · intro hcontra
    have := congrArg ShotRow.id hcontra
    simp at this

theorem shot_append_only_witness :
    ("shots_table" ∈ (mkConn dbSeed).pending.schema ∧
      falsy (adapterGet rS "player_id") = false ∧
      falsy (adapterGet rS "game_id") = false ∧
      falsy (adapterGet rS "team_id") = false ∧
      (mkConn dbSeed).pending.hasPlayer (adapterGet rS "player_id") = true ∧
      (mkConn dbSeed).pending.hasGame (adapterGet rS "game_id") = true ∧
      (mkConn dbSeed).pending.hasTeam (adapterGet rS "team_id") = true) ∧
    (insert_shot rS (mkConn dbSeed)).exc = Option.none ∧
    (insert_shot rS (insert_shot rS (mkConn dbSeed)).conn).exc
      = Option.none ∧
    (insert_shot rS
        (insert_shot rS (mkConn dbSeed)).conn).conn.pending.shots
      = dbSeed.shots ++
      [⟨dbSeed.shotSeq, adapterGet rS "player_id", adapterGet rS "game_id",
        adapterGet rS "team_id", adapterGet rS "shot_quarter",
        adapterGet rS "shot_time", adapterGet rS "shot_type",
        adapterGet rS "shot_x_location", adapterGet rS "shot_y_location"⟩,
       ⟨dbSeed.shotSeq + 1, adapterGet rS "player_id",
        adapterGet rS "game_id", adapterGet rS "team_id",
        adapterGet rS "shot_quarter", adapterGet rS "shot_time",
        adapterGet rS "shot_type", adapterGet rS "shot_x_location",
        adapterGet rS "shot_y_location"⟩] ∧
    (⟨dbSeed.shotSeq, adapterGet rS "player_id", adapterGet rS "game_id",
        adapterGet rS "team_id", adapterGet rS "shot_quarter",
        adapterGet rS "shot_time", adapterGet rS "shot_type",
        adapterGet rS "shot_x_location", adapterGet rS "shot_y_location"⟩
      : ShotRow) ≠
    (⟨dbSeed.shotSeq + 1, adapterGet rS "player_id",
        adapterGet rS "game_id", adapterGet rS "team_id",
        adapterGet rS "shot_quarter", adapterGet rS "shot_time",
        adapterGet rS "shot_type", adapterGet rS "shot_x_location",
        adapterGet rS "shot_y_location"⟩ : ShotRow) :=
  ⟨⟨by decide, by decide, by decide, by decide, by decide, by decide,
      by decide⟩,
    (shot_append_only rS (mkConn dbSeed) (by decide) (by decide) (by decide)
      (by decide) (by decide) (by decide) (by decide)).1,
    (shot_append_only rS (mkConn dbSeed) (by decide) (by decide) (by decide)
      (by decide) (by decide) (by decide) (by decide)).2.2.1,
    (shot_append_only rS (mkConn dbSeed) (by decide) (by decide) (by decide)
      (by decide) (by decide) (by decide) (by decide)).2.2.2.1,
    (shot_append_only rS (mkConn dbSeed) (by decide) (by decide) (by decide)
      (by decide) (by decide) (by decide) (by decide)).2.2.2.2⟩

theorem adapterGet_eq_none_of_absent (r : Record) (k : String)
    (h : fieldAbsent r k = true) : adapterGet r k = .none := by
  unfold fieldAbsent at h
  unfold adapterGet
  cases hf : r.find? (fun p => p.1 == k) with
  | none => rfl
  | some p => rw [hf] at h; simp at h

theorem insert_team_skip (r : Record) (c : Conn)
    (h : falsy (adapterGet r "id") = true) :
    insert_team r c = ⟨c, Option.none, true⟩ := by
  simp [insert_team, h]

theorem insert_player_skip (r : Record) (c : Conn)
    (h : falsy (adapterGet r "player_id") = true) :
    insert_player r c = ⟨c, Option.none, true⟩ := by
  simp [insert_player, h]

theorem insert_roster_skip (r : Record) (c : Conn)
    (h : falsy (adapterGet r "player_id") = true ∨
      falsy (adapterGet r "player_team_id") = true ∨
      falsy (adapterGet r "season") = true) :
    insert_player_team_by_season r c = ⟨c, Option.none, true⟩ := by
  rcases h with h | h | h <;> simp [insert_player_team_by_season, h]

theorem insert_game_skip (r : Record) (c : Conn)
    (h : falsy (adapterGet r "game_id") = true) :
    insert_game r c = ⟨c, Option.none, true⟩ := by
  simp [insert_game, h]

theorem insert_shot_skip (r : Record) (c : Conn)
    (h : falsy (adapterGet r "player_id") = true ∨
      falsy (adapterGet r "game_id") = true ∨
      falsy (adapterGet r "team_id") = true) :
    insert_shot r c = ⟨c, Option.none, true⟩ := by
  rcases h with h | h | h <;> simp [insert_shot, h]

/-- Claim C6: for every entity writer, when a field that participates in the
entity's key is absent from the input record, the writer stores nothing,
raises no exception, logs a warning, and leaves the connection (and so the
caller's transaction and earlier writes) entirely unchanged. -/
theorem missing_key_field_skip :
    (∀ (r : Record) (c : Conn), fieldAbsent r "id" = true →
        insert_team r c = ⟨c, Option.none, true⟩) ∧
    (∀ (r : Record) (c : Conn), fieldAbsent r "player_id" = true →
        insert_player r c = ⟨c, Option.none, true⟩) ∧
    (∀ (r : Record) (c : Conn),
        fieldAbsent r "player_id" = true ∨
        fieldAbsent r "player_team_id" = true ∨
        fieldAbsent r "season" = true →
        insert_player_team_by_season r c = ⟨c, Option.none, true⟩) ∧
    (∀ (r : Record) (c : Conn), fieldAbsent r "game_id" = true →
        insert_game r c = ⟨c, Option.none, true⟩) ∧
    (∀ (r : Record) (c : Conn),
        fieldAbsent r "player_id" = true ∨ fieldAbsent r "game_id" = true ∨
        fieldAbsent r "team_id" = true →
        insert_shot r c = ⟨c, Option.none, true⟩) := by
  refine ⟨?_, ?_, ?_, ?_, ?_⟩
  · intro r c h
    exact insert_team_skip r c (by rw [adapterGet_eq_none_of_absent r _ h]; rfl)
  · intro r c h
    exact insert_player_skip r c
      (by rw [adapterGet_eq_none_of_absent r _ h]; rfl)
  · intro r c h
    refine insert_roster_skip r c ?_
    rcases h with h | h | h
    · exact Or.inl (by rw [adapterGet_eq_none_of_absent r _ h]; rfl)
    · exact Or.inr (Or.inl (by rw [adapterGet_eq_none_of_absent r _ h]; rfl))
    · exact Or.inr (Or.inr (by rw [adapterGet_eq_none_of_absent r _ h]; rfl))
  · intro r c h
    exact insert_game_skip r c (by rw [adapterGet_eq_none_of_absent r _ h]; rfl)
  · intro r c h
    refine insert_shot_skip r c ?_
    rcases h with h | h | h
    · exact Or.inl (by rw [adapterGet_eq_none_of_absent r _ h]; rfl)
    · exact Or.inr (Or.inl (by rw [adapterGet_eq_none_of_absent r _ h]; rfl))
    · exact Or.inr (Or.inr (by rw [adapterGet_eq_none_of_absent r _ h]; rfl))

/-- Claim C10: every writer's required-field check tests Python truthiness,
so any falsy key value — `None`, but also the integer 0 or the empty
string — is treated exactly like an absent field: the write is skipped
with a warning, nothing is stored and nothing is raised. -/
theorem falsy_key_treated_as_absent :
    (∀ (r : Record) (c : Conn), falsy (adapterGet r "id") = true →
        insert_team r c = ⟨c, Option.none, true⟩) ∧
    (∀ (r : Record) (c : Conn), falsy (adapterGet r "player_id") = true →
        insert_player r c = ⟨c, Option.none, true⟩) ∧
    (∀ (r : Record) (c : Conn),
        falsy (adapterGet r "player_id") = true ∨
        falsy (adapterGet r "player_team_id") = true ∨
        falsy (adapterGet r "season") = true →
        insert_player_team_by_season r c = ⟨c, Option.none, true⟩) ∧
    (∀ (r : Record) (c : Conn), falsy (adapterGet r "game_id") = true →
        insert_game r c = ⟨c, Option.none, true⟩) ∧
    (∀ (r : Record) (c : Conn),
        falsy (adapterGet r "player_id") = true ∨
        falsy (adapterGet r "game_id") = true ∨
        falsy (adapterGet r "team_id") = true →
        insert_shot r c = ⟨c, Option.none, true⟩) :=
  ⟨insert_team_skip, insert_player_skip, insert_roster_skip,
    insert_game_skip, insert_shot_skip⟩

theorem missing_key_field_skip_witness :
    (fieldAbsent rTeamNoId "id" = true ∧
      insert_team rTeamNoId (mkConn dbSeed) = ⟨mkConn dbSeed, Option.none, true⟩) ∧
    (fieldAbsent rPlayerNoId "player_id" = true ∧
      insert_player rPlayerNoId (mkConn dbSeed)
        = ⟨mkConn dbSeed, Option.none, true⟩) ∧
    (fieldAbsent rRosterNoSeason "season" = true ∧
      insert_player_team_by_season rRosterNoSeason (mkConn dbSeed)
        = ⟨mkConn dbSeed, Option.none, true⟩) ∧
    (fieldAbsent rGameNoId "game_id" = true ∧
      insert_game rGameNoId (mkConn dbSeed)
        = ⟨mkConn dbSeed, Option.none, true⟩) ∧
    (fieldAbsent rShotNoTeam "team_id" = true ∧
      insert_shot rShotNoTeam (mkConn dbSeed)
        = ⟨mkConn dbSeed, Option.none, true⟩) :=
  ⟨⟨by decide, missing_key_field_skip.1 rTeamNoId (mkConn dbSeed) (by decide)⟩,
    ⟨by decide,
      missing_key_field_skip.2.1 rPlayerNoId (mkConn dbSeed) (by decide)⟩,
    ⟨by decide, missing_key_field_skip.2.2.1 rRosterNoSeason (mkConn dbSeed)
      (Or.inr (Or.inr (by decide)))⟩,
    ⟨by decide,
      missing_key_field_skip.2.2.2.1 rGameNoId (mkConn dbSeed) (by decide)⟩,
    ⟨by decide, missing_key_field_skip.2.2.2.2 rShotNoTeam (mkConn dbSeed)
      (Or.inr (Or.inr (by decide)))⟩⟩

theorem falsy_key_treated_as_absent_witness :
    (adapterGet rTeamEmptyId "id" = .str "" ∧
      insert_team rTeamEmptyId (mkConn dbSeed)
        = ⟨mkConn dbSeed, Option.none, true⟩) ∧
    (adapterGet rPlayerZeroId "player_id" = .int 0 ∧
      insert_player rPlayerZeroId (mkConn dbSeed)
        = ⟨mkConn dbSeed, Option.none, true⟩) ∧
    (adapterGet rRosterEmptySeason "season" = .str "" ∧
      insert_player_team_by_season rRosterEmptySeason (mkConn dbSeed)
        = ⟨mkConn dbSeed, Option.none, true⟩) ∧
    (adapterGet rGameZeroId "game_id" = .int 0 ∧
      insert_game rGameZeroId (mkConn dbSeed)
        = ⟨mkConn dbSeed, Option.none, true⟩) ∧
    (adapterGet rShotEmptyTeam "team_id" = .str "" ∧
      insert_shot rShotEmptyTeam (mkConn dbSeed)
        = ⟨mkConn dbSeed, Option.none, true⟩) :=
  ⟨⟨by decide,
      falsy_key_treated_as_absent.1 rTeamEmptyId (mkConn dbSeed) (by decide)⟩,
    ⟨by decide, falsy_key_treated_as_absent.2.1 rPlayerZeroId (mkConn dbSeed)
      (by decide)⟩,
    ⟨by decide, falsy_key_treated_as_absent.2.2.1 rRosterEmptySeason
      (mkConn dbSeed) (Or.inr (Or.inr (by decide)))⟩,
    ⟨by decide, falsy_key_treated_as_absent.2.2.2.1 rGameZeroId (mkConn dbSeed)
      (by decide)⟩,
    ⟨by decide, falsy_key_treated_as_absent.2.2.2.2 rShotEmptyTeam
      (mkConn dbSeed) (Or.inr (Or.inr (by decide)))⟩⟩

/-- Claim C7 counterexample: on a connection whose `rollback()` raises
`other 99`, a body failure `other 1` does not escape the scope; the
rollback failure escapes instead (and `putconn` is skipped, so the pool
comes back empty). The exception that escapes is not the original one,
refuting the claim that the original failure is never masked. -/
theorem exit_rollback_failure_masks :
    runScope [cBroken] [Stmt.raiseExc (Exc.other 1)]
      = some (some (Exc.other 99), []) ∧
    (some (Exc.other 99) : Option Exc) ≠ some (Exc.other 1) :=
  ⟨by decide, by decide⟩

/-- Claim C7 (amended): on abnormal exit, when the rollback call succeeds
the original failure propagates unchanged (and the connection is returned);
but when the rollback itself fails, `__exit__` has no handler around it, so
the rollback failure propagates in place of the original failure — it is
not logged — and the connection is not returned to the pool. -/
theorem exit_rollback_failure_propagates :
    (∀ (c : Conn) (e : Exc), c.rollbackRaises = Option.none →
        scopeExit c (some e)
          = ({ c with cursorOpen := false, pending := c.committed },
              some e, true)) ∧
    (∀ (c : Conn) (e e' : Exc), c.rollbackRaises = some e' →
        scopeExit c (some e)
          = ({ c with cursorOpen := false }, some e', false)) := by
  constructor
  · intro c e h
    simp [scopeExit, h]
  · intro c e e' h
    simp [scopeExit, h]

theorem exit_rollback_failure_propagates_witness :
    ((mkConn DB.empty).rollbackRaises = Option.none ∧
      scopeExit (mkConn DB.empty) (some (Exc.other 1))
        = ({ (mkConn DB.empty) with
              cursorOpen := false,
              pending := (mkConn DB.empty).committed },
            some (Exc.other 1), true)) ∧
    (cBroken.rollbackRaises = some (Exc.other 99) ∧
      scopeExit cBroken (some (Exc.other 1))
        = ({ cBroken with cursorOpen := false }, some (Exc.other 99), false)) :=
  ⟨⟨rfl, exit_rollback_failure_propagates.1 (mkConn DB.empty)
      (Exc.other 1) rfl⟩,
    ⟨rfl, exit_rollback_failure_propagates.2 cBroken (Exc.other 1)
      (Exc.other 99) rfl⟩⟩

theorem ebind_ok {A B : Type} (a : A) (f : A → Except Exc B) :
    (Except.ok a).bind f = f a := rfl

theorem createStmt_spec (db : DB) (n : String) (deps : List String)
    (hdeps : ∀ t ∈ deps, t ∈ db.schema) :
    ∃ db', createStmt db n deps = .ok db' ∧
      db'.teams = db.teams ∧ db'.players = db.players ∧
      db'.rosters = db.rosters ∧ db'.games = db.games ∧
      db'.shots = db.shots ∧ db'.shotSeq = db.shotSeq ∧
      n ∈ db'.schema ∧ (∀ t ∈ db.schema, t ∈ db'.schema) ∧
      (n ∈ db.schema → db' = db) := by
  by_cases h : n ∈ db.schema
  · exact ⟨db, by simp [createStmt, h], rfl, rfl, rfl, rfl, rfl, rfl, h,
      fun t ht => ht, fun _ => rfl⟩
  · refine ⟨{ db with schema := n :: db.schema }, ?_, rfl, rfl, rfl, rfl,
      rfl, rfl, ?_, ?_, ?_⟩
    · unfold createStmt
      rw [if_neg h, if_pos hdeps]
    · simp
    · intro t ht
      simp [ht]
    · intro hn
      exact absurd hn h

theorem runDDL_spec (db : DB) :
    ∃ db', runDDL db = .ok db' ∧
      db'.teams = db.teams ∧ db'.players = db.players ∧
      db'.rosters = db.rosters ∧ db'.games = db.games ∧
      db'.shots = db.shots ∧ db'.shotSeq = db.shotSeq ∧
      "teams_table" ∈ db'.schema ∧ "players_table" ∈ db'.schema ∧
      "player_teams_by_season_table" ∈ db'.schema ∧
      "games_table" ∈ db'.schema ∧ "shots_table" ∈ db'.schema ∧
      ("teams_table" ∈ db.schema → "players_table" ∈ db.schema →
        "player_teams_by_season_table" ∈ db.schema →
        "games_table" ∈ db.schema → "shots_table" ∈ db.schema →
        db' = db) := by
  obtain ⟨d1, e1, ht1, hp1, hr1, hg1, hs1, hq1, hm1, hsub1, hid1⟩ :=
    createStmt_spec db "teams_table" [] (by simp)
  obtain ⟨d2, e2, ht2, hp2, hr2, hg2, hs2, hq2, hm2, hsub2, hid2⟩ :=
    createStmt_spec d1 "players_table" [] (by simp)
  obtain ⟨d3, e3, ht3, hp3, hr3, hg3, hs3, hq3, hm3, hsub3, hid3⟩ :=
    createStmt_spec d2 "player_teams_by_season_table"
      ["players_table", "teams_table"] (by
        intro t ht
        simp only [List.mem_cons, List.not_mem_nil, or_false] at ht
        rcases ht with rfl | rfl
        · exact hm2
        · exact hsub2 _ hm1)
  obtain ⟨d4, e4, ht4, hp4, hr4, hg4, hs4, hq4, hm4, hsub4, hid4⟩ :=
    createStmt_spec d3 "games_table" ["teams_table"] (by
      intro t ht
      simp only [List.mem_cons, List.not_mem_nil, or_false] at ht
      rcases ht with rfl
      exact hsub3 _ (hsub2 _ hm1))
  obtain ⟨d5, e5, ht5, hp5, hr5, hg5, hs5, hq5, hm5, hsub5, hid5⟩ :=
    createStmt_spec d4 "shots_table"
      ["players_table", "games_table", "teams_table"] (by
        intro t ht
        simp only [List.mem_cons, List.not_mem_nil, or_false] at ht
        rcases ht with rfl | rfl | rfl
        · exact hsub4 _ (hsub3 _ hm2)
        · exact hm4
        · exact hsub4 _ (hsub3 _ (hsub2 _ hm1)))
  refine ⟨d5, ?_, ?_, ?_, ?_, ?_, ?_, ?_, ?_, ?_, ?_, ?_, ?_, ?_⟩
  · simp only [runDDL, bind, e1, e2, e3, e4, e5, ebind_ok]
  · rw [ht5, ht4, ht3, ht2, ht1]
  · rw [hp5, hp4, hp3, hp2, hp1]
  · rw [hr5, hr4, hr3, hr2, hr1]
  · rw [hg5, hg4, hg3, hg2, hg1]
  · rw [hs5, hs4, hs3, hs2, hs1]
  · rw [hq5, hq4, hq3, hq2, hq1]
  · exact hsub5 _ (hsub4 _ (hsub3 _ (hsub2 _ hm1)))
  · exact hsub5 _ (hsub4 _ (hsub3 _ hm2))
  · exact hsub5 _ (hsub4 _ hm3)
  · exact hsub5 _ hm4
  · exact hm5
  · intro i1 i2 i3 i4 i5
    have g1 := hid1 i1
    subst g1
    have g2 := hid2 i2
    subst g2
    have g3 := hid3 i3
    subst g3
    have g4 := hid4 i4
    subst g4
    exact hid5 i5

/-- Claim C8: `create_tables` never fails, and is idempotent: invoking it
again immediately afterwards succeeds and returns the connection completely
unchanged (no schema and no data change); the first invocation changes no
table data, and afterwards all five tables exist — the create-if-absent
batch succeeds from any starting schema because the foreign-key-free tables
are created first, in dependency order. -/
theorem create_tables_idempotent (c : Conn) :
    (create_tables c).2 = Option.none ∧
    create_tables (create_tables c).1 = ((create_tables c).1, Option.none) ∧
    (create_tables c).1.committed = c.committed ∧
    (create_tables c).1.pending.teams = c.pending.teams ∧
    (create_tables c).1.pending.players = c.pending.players ∧
    (create_tables c).1.pending.rosters = c.pending.rosters ∧
    (create_tables c).1.pending.games = c.pending.games ∧
    (create_tables c).1.pending.shots = c.pending.shots ∧
    (create_tables c).1.pending.shotSeq = c.pending.shotSeq ∧
    "teams_table" ∈ (create_tables c).1.pending.schema ∧
    "players_table" ∈ (create_tables c).1.pending.schema ∧
    "player_teams_by_season_table" ∈ (create_tables c).1.pending.schema ∧
    "games_table" ∈ (create_tables c).1.pending.schema ∧
    "shots_table" ∈ (create_tables c).1.pending.schema := by
  obtain ⟨db', he, h1, h2, h3, h4, h5, h6, m1, m2, m3, m4, m5, hid⟩ :=
    runDDL_spec c.pending
  have hct : create_tables c = ({ c with pending := db' }, Option.none) := by
    simp [create_tables, he]
  obtain ⟨db2, he2, k1, k2, k3, k4, k5, k6, n1, n2, n3, n4, n5, hid2⟩ :=
    runDDL_spec db'
  have hdb2 : db2 = db' := hid2 m1 m2 m3 m4 m5
  have hct2 : create_tables ({ c with pending := db' } : Conn)
      = ({ c with pending := db' }, Option.none) := by
    subst hdb2
    simp [create_tables, he2]
  rw [hct]
  exact ⟨rfl, hct2, rfl, h1, h2, h3, h4, h5, h6, m1, m2, m3, m4, m5⟩

/-- Claim C9: with the games table present, `get_id_games_by_season` leaves
the connection untouched (no writes), raises nothing, and returns a
duplicate-free list containing exactly the distinct ids of the games whose
season column equals the argument; when no game matches, the result is
empty rather than a failure. -/
theorem gameIds_by_season (season : Value) (c : Conn)
    (h : "games_table" ∈ c.pending.schema) :
    (get_id_games_by_season season c).conn = c ∧
    (get_id_games_by_season season c).exc = Option.none ∧
    (get_id_games_by_season season c).rows.Nodup ∧
    (∀ v, v ∈ (get_id_games_by_season season c).rows ↔
      ∃ g ∈ c.pending.games, g.season = season ∧ g.id = v) ∧
    ((∀ g ∈ c.pending.games, g.season ≠ season) →
      (get_id_games_by_season season c).rows = []) := by
  unfold get_id_games_by_season
  rw [if_pos h]
  refine ⟨rfl, rfl, List.nodup_dedup _, ?_, ?_⟩
  · intro v
    constructor
    · intro hv
      rw [List.mem_dedup] at hv
      obtain ⟨g, hg, rfl⟩ := List.mem_map.mp hv
      obtain ⟨hg1, hg2⟩ := List.mem_filter.mp hg
      exact ⟨g, hg1, by simpa using hg2, rfl⟩
    · rintro ⟨g, hg, hs, rfl⟩
      rw [List.mem_dedup]
      exact List.mem_map.mpr ⟨g, List.mem_filter.mpr ⟨hg, by simp [hs]⟩, rfl⟩
  · intro hnone
    have hfil : c.pending.games.filter (fun g => g.season == season) = [] := by
      apply filter_eq_nil_of_any_false
      rw [List.any_eq_false]
      intro g hg
      simp [hnone g hg]
    simp [hfil]

theorem gameIds_by_season_witness :
    ("games_table" ∈ (mkConn dbGames).pending.schema ∧
      (get_id_games_by_season (.str "2023") (mkConn dbGames)).rows
        = [.int 10, .int 11]) ∧
    ((get_id_games_by_season (.str "2023") (mkConn dbGames)).conn
        = mkConn dbGames ∧
      (get_id_games_by_season (.str "2023") (mkConn dbGames)).exc
        = Option.none ∧
      (get_id_games_by_season (.str "2023") (mkConn dbGames)).rows.Nodup ∧
      (∀ v, v ∈ (get_id_games_by_season (.str "2023") (mkConn dbGames)).rows ↔
        ∃ g ∈ (mkConn dbGames).pending.games,
          g.season = .str "2023" ∧ g.id = v) ∧
      ((∀ g ∈ (mkConn dbGames).pending.games, g.season ≠ .str "2023") →
        (get_id_games_by_season (.str "2023") (mkConn dbGames)).rows = [])) :=
  ⟨⟨by decide, by decide⟩,
    gameIds_by_season (.str "2023") (mkConn dbGames) (by decide)⟩
